import Mathlib

/-!
PriceTracker dashboard: a shallow embedding of the front-end logic.

The development embeds the parts of `frontend/src` that carry behaviour:

* `App.jsx`: the derived values `filteredProducts` and `stats`, the handlers
  `fetchProducts`, `handleManualScrape` and `handleDelete`, the product grid with its empty
  state, and the detail overlay (the names in its scope, its statistics, its chart series);
* `components/ProductCard.jsx`: the synthetic chart series `mockChartData`, the badge test
  `hasLowerPrice`, the price texts and `handleScrape`;
* `components/PriceChart.jsx`: the placeholder and the points of the chart;
* `components/AddProductModal.jsx`: `handleSubmit`, `handleReset`, and the modal as a state
  machine over its events;
* `services/api.js`: the request built by every service wrapper.

Modelling conventions.

* A JavaScript string is a Lean `String`.
* A JavaScript number is a `JSNumber`: `NaN`, one of the two infinities, or a finite value,
  given as the rational it denotes. Addition and subtraction round their exact result to
  binary64 (`round64`: to nearest, ties to even, an infinity on overflow); the sign of zero
  is not modelled. The products by a literal in the synthetic chart series are left exact.
* A numeric field of a product received as JSON is a `PriceField`: absent (`undefined`),
  `null`, or a finite number (any rational, the binary64 numbers among them). A value
  computed at run time in a numeric position is a `JSVal`.
* A handler is a computation over the component state that records, in order, the requests it
  issues; the outcome of every request is supplied by a `Server`. A call that the source does
  not await is run at its call site: its continuation writes only cells (`products`,
  `loading`) that the rest of the calling handler neither reads nor writes.
* `String.prototype.toLowerCase` depends on the Unicode tables of the engine; it is a
  parameter `toLowerCase : String → String` of the definitions that call it.
-/

namespace PriceTracker

/-! ## JavaScript values -/

/-- A JavaScript number. -/
inductive JSNumber where
  | nan
  | posInf
  | negInf
  | fin (q : ℚ)
  deriving DecidableEq

/-- The natural number nearest to a non-negative rational, a tie going to the even one. -/
def roundHalfEven (x : ℚ) : ℕ :=
  if x - ⌊x⌋₊ < 1 / 2 then ⌊x⌋₊
  else if 1 / 2 < x - ⌊x⌋₊ then ⌊x⌋₊ + 1
  else if ⌊x⌋₊ % 2 = 0 then ⌊x⌋₊
  else ⌊x⌋₊ + 1

/-- The binary exponent of the spacing of the binary64 numbers around a positive magnitude:
52 below the binary exponent of the magnitude, and `-1074` throughout the subnormal range. -/
def ulpExponent (a : ℚ) : ℤ :=
  max (Int.log 2 a) (-1022) - 52

/-- The multiple of the spacing that is nearest to a positive magnitude, ties to even. -/
def roundMagnitude (a : ℚ) : ℚ :=
  (roundHalfEven (a / (2 : ℚ) ^ ulpExponent a) : ℚ) * (2 : ℚ) ^ ulpExponent a

/-- The binary64 number nearest to a rational (round to nearest, ties to even), an infinity
when the rounded magnitude reaches `2 ^ 1024`. -/
def JSNumber.round64 (q : ℚ) : JSNumber :=
  if q = 0 then JSNumber.fin 0
  else if (2 : ℚ) ^ (1024 : ℕ) ≤ roundMagnitude |q| then
    (if 0 < q then JSNumber.posInf else JSNumber.negInf)
  else JSNumber.fin (if 0 < q then roundMagnitude |q| else - roundMagnitude |q|)

namespace JSNumber

/-- The JavaScript `a - b` on numbers: the exact difference of two finite numbers, rounded
to binary64. -/
def sub : JSNumber → JSNumber → JSNumber
  | nan, _ => nan
  | _, nan => nan
  | fin a, fin b => round64 (a - b)
  | posInf, posInf => nan
  | negInf, negInf => nan
  | posInf, _ => posInf
  | negInf, _ => negInf
  | fin _, posInf => negInf
  | fin _, negInf => posInf

/-- The JavaScript `a + b` on numbers: the exact sum of two finite numbers, rounded to
binary64. -/
def add : JSNumber → JSNumber → JSNumber
  | nan, _ => nan
  | _, nan => nan
  | fin a, fin b => round64 (a + b)
  | posInf, negInf => nan
  | negInf, posInf => nan
  | posInf, _ => posInf
  | negInf, _ => negInf
  | fin _, posInf => posInf
  | fin _, negInf => negInf

/-- The JavaScript `a * b` on numbers; the product of two finite numbers is left exact. -/
def mul : JSNumber → JSNumber → JSNumber
  | nan, _ => nan
  | _, nan => nan
  | fin a, fin b => fin (a * b)
  | posInf, posInf => posInf
  | negInf, negInf => posInf
  | posInf, negInf => negInf
  | negInf, posInf => negInf
  | posInf, fin b => if b = 0 then nan else if 0 < b then posInf else negInf
  | negInf, fin b => if b = 0 then nan else if 0 < b then negInf else posInf
  | fin a, posInf => if a = 0 then nan else if 0 < a then posInf else negInf
  | fin a, negInf => if a = 0 then nan else if 0 < a then negInf else posInf

/-- The JavaScript `a < b` on numbers: false as soon as one side is `NaN`. -/
def lt : JSNumber → JSNumber → Bool
  | nan, _ => false
  | _, nan => false
  | fin a, fin b => decide (a < b)
  | posInf, _ => false
  | _, negInf => false
  | negInf, _ => true
  | fin _, posInf => true

/-- The JavaScript `a > b`, which is `b < a`. -/
def gt (a b : JSNumber) : Bool := lt b a

/-- The number is neither `NaN` nor negative: a finite number from 0 on, or `Infinity`. -/
def NonNeg : JSNumber → Prop
  | fin q => 0 ≤ q
  | posInf => True
  | _ => False

/-- Spec: `max(x, 0)` for a difference `x` of two prices, a difference that is not a number
(a price is missing) counting as 0. -/
def max0 : JSNumber → JSNumber
  | fin q => fin (max q 0)
  | posInf => posInf
  | _ => fin 0

/-- Spec: the sum of a list of numbers, added in list order with the JavaScript `+`. -/
def sum (xs : List JSNumber) : JSNumber :=
  xs.foldl add (fin 0)

end JSNumber

/-- A run-time value in a numeric position: `undefined`, `null` or a number. -/
inductive JSVal where
  | undefined
  | null
  | num (n : JSNumber)
  deriving DecidableEq

/-- A numeric field of an object parsed from JSON: absent, `null`, or a finite number. -/
inductive PriceField where
  | undefined
  | null
  | num (q : ℚ)
  deriving DecidableEq

namespace PriceField

/-- The field as a run-time value. -/
def toVal : PriceField → JSVal
  | undefined => JSVal.undefined
  | null => JSVal.null
  | num q => JSVal.num (JSNumber.fin q)

/-- The abstract operation `ToNumber`: `undefined` is `NaN`, `null` is `0`. -/
def toNumber : PriceField → JSNumber
  | undefined => JSNumber.nan
  | null => JSNumber.fin 0
  | num q => JSNumber.fin q

/-- The JavaScript `a < b` on two such fields: both sides go through `ToNumber`. -/
def lt (a b : PriceField) : Bool := JSNumber.lt a.toNumber b.toNumber

end PriceField

/-- The JavaScript `s.includes(t)`: `t` occurs in `s` at some position. -/
def includesList : List Char → List Char → Bool
  | [], t => t.isEmpty
  | c :: s, t => t.isPrefixOf (c :: s) || includesList s t

/-- The method `String.prototype.includes`. -/
def includes (s t : String) : Bool := includesList s.data t.data

/-! ## The data model -/

/-- An identifier as JavaScript sees it: a number or a string. -/
inductive ProductId where
  | num (n : Int)
  | str (s : String)
  deriving DecidableEq

/-- A tracked product as the dashboard reads it from `GET /products`. -/
structure Product where
  id : ProductId
  name : String
  active : Bool
  currentPrice : PriceField
  avgPrice : PriceField
  minPrice : PriceField
  maxPrice : PriceField
  targetPrice : PriceField
  sourceSite : String
  productUrl : String
  scrapeFrequency : String
  alertEmail : String
  deriving DecidableEq

/-- The component state of `App` (the `useState` cells of `App.jsx`). -/
structure AppState where
  products : List Product
  loading : Bool
  selectedProduct : Option Product
  isAddModalOpen : Bool
  searchQuery : String
  filterMode : String
  deriving DecidableEq

/-- The initial state of `App`. -/
def AppState.init : AppState :=
  { products := [], loading := true, selectedProduct := none, isAddModalOpen := false,
    searchQuery := "", filterMode := "ALL" }

/-! ## Derived values of `App` -/

/-- The predicate passed to `products.filter` for `filteredProducts`. -/
def matchesFilter (toLowerCase : String → String) (searchQuery filterMode : String)
    (p : Product) : Bool :=
  let matchesSearch := includes (toLowerCase p.name) (toLowerCase searchQuery)
  if filterMode = "ACTIVE" then matchesSearch && p.active
  else if filterMode = "PRICE_DROP" then matchesSearch && PriceField.lt p.currentPrice p.avgPrice
  else matchesSearch

/-- The value `filteredProducts` of `App`. -/
def filteredProducts (toLowerCase : String → String) (s : AppState) : List Product :=
  s.products.filter (matchesFilter toLowerCase s.searchQuery s.filterMode)

/-- The summand of `stats.savings`:
`p.maxPrice - p.currentPrice > 0 ? p.maxPrice - p.currentPrice : 0`. -/
def savingsTerm (p : Product) : JSNumber :=
  if JSNumber.gt (JSNumber.sub p.maxPrice.toNumber p.currentPrice.toNumber) (JSNumber.fin 0)
  then JSNumber.sub p.maxPrice.toNumber p.currentPrice.toNumber
  else JSNumber.fin 0

/-- The object `stats` of `App`. -/
structure Stats where
  total : Nat
  active : Nat
  drops : Nat
  savings : JSNumber
  deriving DecidableEq

/-- The value `stats` of `App`. -/
def stats (s : AppState) : Stats :=
  { total := s.products.length
    active := (s.products.filter (fun p => p.active)).length
    drops := (s.products.filter (fun p => PriceField.lt p.currentPrice p.avgPrice)).length
    savings := s.products.foldl (fun acc p => JSNumber.add acc (savingsTerm p)) (JSNumber.fin 0) }

/-! ## Chart data (`ProductCard.jsx`, `App.jsx`) -/

/-- An observation handed to `PriceChart`: `{ price, scrapedAt }`, the date in milliseconds. -/
structure PricePoint where
  price : JSVal
  scrapedAt : Int
  deriving DecidableEq

/-- The JavaScript `x * k` for a price field `x` and a numeric literal `k`. -/
def scalePrice (x : PriceField) (k : ℚ) : JSVal :=
  JSVal.num (JSNumber.mul x.toNumber (JSNumber.fin k))

/-- The array `mockChartData` of `ProductCard`. The clock is read five times while the array
is built (`Date.now()` four times, then `new Date()`); `clock i` is the `i`-th reading. -/
def mockChartData (product : Product) (clock : Nat → Int) : List PricePoint :=
  [ { price := scalePrice product.currentPrice (105 / 100), scrapedAt := clock 0 - 86400000 * 4 },
    { price := scalePrice product.currentPrice (11 / 10), scrapedAt := clock 1 - 86400000 * 3 },
    { price := scalePrice product.currentPrice (108 / 100), scrapedAt := clock 2 - 86400000 * 2 },
    { price := scalePrice product.currentPrice (95 / 100), scrapedAt := clock 3 - 86400000 * 1 },
    { price := product.currentPrice.toVal, scrapedAt := clock 4 } ]

/-- The `data` prop of the `PriceChart` rendered by `ProductCard`:
`<PriceChart data={mockChartData} />`. -/
def cardChartData (product : Product) (clock : Nat → Int) : List PricePoint :=
  mockChartData product clock

/-- The `data` prop of the `PriceChart` rendered in the detail overlay of `App`: the array
literal built from `selectedProduct.currentPrice`, with six clock readings. -/
def overlayChartData (selectedProduct : Product) (clock : Nat → Int) : List PricePoint :=
  [ { price := scalePrice selectedProduct.currentPrice (115 / 100),
      scrapedAt := clock 0 - 86400000 * 10 },
    { price := scalePrice selectedProduct.currentPrice (110 / 100),
      scrapedAt := clock 1 - 86400000 * 8 },
    { price := scalePrice selectedProduct.currentPrice (125 / 100),
      scrapedAt := clock 2 - 86400000 * 6 },
    { price := scalePrice selectedProduct.currentPrice (105 / 100),
      scrapedAt := clock 3 - 86400000 * 4 },
    { price := scalePrice selectedProduct.currentPrice (110 / 100),
      scrapedAt := clock 4 - 86400000 * 2 },
    { price := selectedProduct.currentPrice.toVal, scrapedAt := clock 5 } ]

/-! ## Built-ins used by the add-product form and the service wrappers -/

/-- The code points that `parseFloat` skips at the start of its argument
(`WhiteSpace` and `LineTerminator`). -/
def isStrWhiteSpaceChar (c : Char) : Bool :=
  [0x9, 0xA, 0xB, 0xC, 0xD, 0x20, 0xA0, 0x1680, 0x2028, 0x2029, 0x202F, 0x205F, 0x3000,
    0xFEFF].contains c.toNat || (0x2000 ≤ c.toNat && c.toNat ≤ 0x200A)

/-- The value of a run of decimal digits. -/
def digitsValue (ds : List Char) : Nat :=
  ds.foldl (fun n c => 10 * n + (c.toNat - 48)) 0

/-- The value of the digits after an exponent indicator and its sign, when there are any. -/
def exponentDigits (negative : Bool) (ds : List Char) : Int :=
  if ds.takeWhile Char.isDigit = [] then 0
  else if negative then - (digitsValue (ds.takeWhile Char.isDigit) : Int)
  else (digitsValue (ds.takeWhile Char.isDigit) : Int)

/-- The exponent denoted by an optional `ExponentPart` at the start of the input; `0` when the
input does not start with a complete one. -/
def exponentPart : List Char → Int
  | [] => 0
  | e :: rest =>
    if e = 'e' ∨ e = 'E' then
      match rest with
      | '+' :: ds => exponentDigits false ds
      | '-' :: ds => exponentDigits true ds
      | ds => exponentDigits false ds
    else 0

/-- The power of ten `10 ^ e` for an integer exponent. -/
def pow10 (e : Int) : ℚ :=
  if 0 ≤ e then (10 : ℚ) ^ e.toNat else 1 / (10 : ℚ) ^ (-e).toNat

/-- An unsigned decimal literal as `parseFloat` reads it: `Infinity`, or the digits of the
integer and fraction parts read as one number, the number of fraction digits, and the
exponent. -/
inductive StrLiteral where
  | infinity
  | decimal (digits : Nat) (fractionDigits : Nat) (exponent : Int)
  deriving DecidableEq

/-- The longest prefix of the input that is a `StrUnsignedDecimalLiteral`, if there is one:
`Infinity`, digits with an optional fraction, or a dot followed by digits, each of the last
two with an optional exponent. -/
def strUnsignedDecimalLiteral (s : List Char) : Option StrLiteral :=
  if "Infinity".data.isPrefixOf s then some StrLiteral.infinity
  else
    match s.dropWhile Char.isDigit with
    | '.' :: r =>
      if s.takeWhile Char.isDigit = [] ∧ r.takeWhile Char.isDigit = [] then none
      else some (StrLiteral.decimal
        (digitsValue (s.takeWhile Char.isDigit ++ r.takeWhile Char.isDigit))
        (r.takeWhile Char.isDigit).length
        (exponentPart (r.dropWhile Char.isDigit)))
    | r =>
      if s.takeWhile Char.isDigit = [] then none
      else some (StrLiteral.decimal (digitsValue (s.takeWhile Char.isDigit)) 0 (exponentPart r))

/-- The number a literal denotes. -/
def StrLiteral.value : StrLiteral → JSNumber
  | StrLiteral.infinity => JSNumber.posInf
  | StrLiteral.decimal d f e => JSNumber.fin ((d : ℚ) / (10 : ℚ) ^ f * pow10 e)

/-- The JavaScript `-x` on numbers. -/
def JSNumber.neg : JSNumber → JSNumber
  | JSNumber.nan => JSNumber.nan
  | JSNumber.posInf => JSNumber.negInf
  | JSNumber.negInf => JSNumber.posInf
  | JSNumber.fin q => JSNumber.fin (-q)

/-- The sign and the literal `parseFloat` finds after the leading white space. -/
def strDecimalLiteral (s : String) : Option (Bool × StrLiteral) :=
  match s.data.dropWhile isStrWhiteSpaceChar with
  | '+' :: r => (strUnsignedDecimalLiteral r).map (fun l => (false, l))
  | '-' :: r => (strUnsignedDecimalLiteral r).map (fun l => (true, l))
  | r => (strUnsignedDecimalLiteral r).map (fun l => (false, l))

/-- The global function `parseFloat`: leading white space is skipped, then the longest prefix
that is a signed decimal literal is evaluated; `NaN` when there is none. -/
def parseFloat (s : String) : JSNumber :=
  match strDecimalLiteral s with
  | some (true, l) => JSNumber.neg l.value
  | some (false, l) => l.value
  | none => JSNumber.nan

/-- The characters `encodeURIComponent` leaves as they are:
letters, digits and `- _ . ! ~ * ( )` and the apostrophe. -/
def isUriUnreserved (c : Char) : Bool :=
  c.isAlphanum || [0x2D, 0x5F, 0x2E, 0x21, 0x7E, 0x2A, 0x27, 0x28, 0x29].contains c.toNat

/-- The upper-case hexadecimal digit of a number below sixteen. -/
def hexDigit (n : Nat) : Char :=
  if n < 10 then Char.ofNat (48 + n) else Char.ofNat (55 + n)

/-- The UTF-8 encoding of a code point, as a list of bytes. -/
def utf8Bytes (n : Nat) : List Nat :=
  if n < 0x80 then [n]
  else if n < 0x800 then [0xC0 + n / 64, 0x80 + n % 64]
  else if n < 0x10000 then [0xE0 + n / 4096, 0x80 + n / 64 % 64, 0x80 + n % 64]
  else [0xF0 + n / 262144, 0x80 + n / 4096 % 64, 0x80 + n / 64 % 64, 0x80 + n % 64]

/-- The escape sequence `%XX` of a byte. -/
def percentByte (b : Nat) : List Char :=
  ['%', hexDigit (b / 16), hexDigit (b % 16)]

/-- The escape of one character by `encodeURIComponent`. -/
def encodeChar (c : Char) : List Char :=
  if isUriUnreserved c then [c] else (utf8Bytes c.toNat).flatMap percentByte

/-- The global function `encodeURIComponent`. -/
def encodeURIComponent (s : String) : String :=
  String.mk (s.data.flatMap encodeChar)

/-! ## The service wrappers (`services/api.js`) -/

/-- The object passed to `productService.addProduct` by the add-product form. -/
structure AddProductData where
  url : String
  targetPrice : JSVal
  alertEmail : String
  scrapeFrequency : String
  deriving DecidableEq

/-- The HTTP methods the wrappers use. -/
inductive Method where
  | GET
  | POST
  | DELETE
  | PATCH
  deriving DecidableEq

/-- The request body given to an `axios` call. -/
inductive Body where
  | none
  | addProduct (data : AddProductData)
  | targetPrice (targetPrice : JSVal)
  | active (active : Bool)
  deriving DecidableEq

/-- A request as it leaves the `axios` instance: the method, the full URL and the body. -/
structure HttpRequest where
  method : Method
  url : String
  body : Body
  deriving DecidableEq

/-- The `baseURL` of the `axios` instance. -/
def baseURL : String := "/api"

/-- The text a template literal inserts for an identifier: a string as it is, an integer in
decimal (the form JavaScript prints for integers below `10 ^ 21` in absolute value). -/
def ProductId.toString : ProductId → String
  | ProductId.num n => ToString.toString n
  | ProductId.str s => s

/-- The method `api.get`: the base URL is put in front of the path. -/
def api.get (path : String) : HttpRequest :=
  { method := Method.GET, url := baseURL ++ path, body := Body.none }

/-- The method `api.post`. -/
def api.post (path : String) (data : Body) : HttpRequest :=
  { method := Method.POST, url := baseURL ++ path, body := data }

/-- The method `api.delete`. -/
def api.delete (path : String) : HttpRequest :=
  { method := Method.DELETE, url := baseURL ++ path, body := Body.none }

/-- The method `api.patch`. -/
def api.patch (path : String) (data : Body) : HttpRequest :=
  { method := Method.PATCH, url := baseURL ++ path, body := data }

namespace productService

/-- The wrapper `getAllProducts`. -/
def getAllProducts : HttpRequest := api.get "/products"

/-- The wrapper `getActiveProducts`. -/
def getActiveProducts : HttpRequest := api.get "/products/active"

/-- The wrapper `getProduct`. -/
def getProduct (id : ProductId) : HttpRequest := api.get ("/products/" ++ id.toString)

/-- The wrapper `addProduct`. -/
def addProduct (data : AddProductData) : HttpRequest :=
  api.post "/products" (Body.addProduct data)

/-- The wrapper `deleteProduct`. -/
def deleteProduct (id : ProductId) : HttpRequest := api.delete ("/products/" ++ id.toString)

/-- The wrapper `updateTargetPrice`. -/
def updateTargetPrice (id : ProductId) (targetPrice : JSVal) : HttpRequest :=
  api.patch ("/products/" ++ id.toString ++ "/target-price") (Body.targetPrice targetPrice)

/-- The wrapper `updateActiveStatus`. -/
def updateActiveStatus (id : ProductId) (active : Bool) : HttpRequest :=
  api.patch ("/products/" ++ id.toString ++ "/active") (Body.active active)

/-- The wrapper `scrapeProduct`. -/
def scrapeProduct (id : ProductId) : HttpRequest :=
  api.post ("/products/" ++ id.toString ++ "/scrape") Body.none

/-- The wrapper `getSupportedSites`. -/
def getSupportedSites : HttpRequest := api.get "/products/supported-sites"

/-- The wrapper `checkUrl`. -/
def checkUrl (url : String) : HttpRequest :=
  api.get ("/products/check-url?url=" ++ encodeURIComponent url)

end productService

namespace priceHistoryService

/-- The wrapper `getHistory`; `days` is `none` when the argument is omitted. -/
def getHistory (id : ProductId) (days : Option Int) : HttpRequest :=
  api.get ("/products/" ++ id.toString ++ "/prices?days=" ++ ToString.toString (days.getD 30))

/-- The wrapper `getAllHistory`. -/
def getAllHistory (id : ProductId) : HttpRequest :=
  api.get ("/products/" ++ id.toString ++ "/prices/all")

/-- The wrapper `getAnalytics`; `days` is `none` when the argument is omitted. -/
def getAnalytics (id : ProductId) (days : Option Int) : HttpRequest :=
  api.get ("/products/" ++ id.toString ++ "/analytics?days=" ++ ToString.toString (days.getD 30))

end priceHistoryService

namespace alertService

/-- The wrapper `getAlertsForProduct`. -/
def getAlertsForProduct (productId : ProductId) : HttpRequest :=
  api.get ("/alerts/product/" ++ productId.toString)

/-- The wrapper `getPendingAlerts`. -/
def getPendingAlerts : HttpRequest := api.get "/alerts/pending"

end alertService

/-- A call of one of the wrappers, with its arguments. -/
inductive ServiceCall where
  | getAllProducts
  | getActiveProducts
  | getProduct (id : ProductId)
  | addProduct (data : AddProductData)
  | deleteProduct (id : ProductId)
  | updateTargetPrice (id : ProductId) (targetPrice : JSVal)
  | updateActiveStatus (id : ProductId) (active : Bool)
  | scrapeProduct (id : ProductId)
  | getSupportedSites
  | checkUrl (url : String)
  | getHistory (id : ProductId) (days : Option Int)
  | getAllHistory (id : ProductId)
  | getAnalytics (id : ProductId) (days : Option Int)
  | getAlertsForProduct (productId : ProductId)
  | getPendingAlerts
  deriving DecidableEq

/-- The request a wrapper call issues: each wrapper is one call of the `axios` instance. -/
def ServiceCall.request : ServiceCall → HttpRequest
  | ServiceCall.getAllProducts => productService.getAllProducts
  | ServiceCall.getActiveProducts => productService.getActiveProducts
  | ServiceCall.getProduct id => productService.getProduct id
  | ServiceCall.addProduct data => productService.addProduct data
  | ServiceCall.deleteProduct id => productService.deleteProduct id
  | ServiceCall.updateTargetPrice id t => productService.updateTargetPrice id t
  | ServiceCall.updateActiveStatus id a => productService.updateActiveStatus id a
  | ServiceCall.scrapeProduct id => productService.scrapeProduct id
  | ServiceCall.getSupportedSites => productService.getSupportedSites
  | ServiceCall.checkUrl url => productService.checkUrl url
  | ServiceCall.getHistory id days => priceHistoryService.getHistory id days
  | ServiceCall.getAllHistory id => priceHistoryService.getAllHistory id
  | ServiceCall.getAnalytics id days => priceHistoryService.getAnalytics id days
  | ServiceCall.getAlertsForProduct id => alertService.getAlertsForProduct id
  | ServiceCall.getPendingAlerts => alertService.getPendingAlerts

/-! ## Handlers -/

/-- The error of a rejected request, reduced to what the handlers read from it:
`err.response?.data?.message`, `none` when the chain yields `undefined` or `null`. -/
structure AxiosError where
  message : Option String
  deriving DecidableEq

/-- The outcome of every request a handler may issue, and of `window.confirm`. -/
structure Server where
  confirm : Bool
  getAllProducts : Except AxiosError (List Product)
  getProduct : ProductId → Except AxiosError Product
  deleteProduct : ProductId → Except AxiosError Unit
  scrapeProduct : ProductId → Except AxiosError Unit
  addProduct : AddProductData → Except AxiosError Unit

/-- The component state of `AddProductModal`. -/
structure ModalState where
  url : String
  targetPrice : String
  email : String
  frequency : String
  loading : Bool
  error : String
  step : Nat
  deriving DecidableEq

/-- The initial state of `AddProductModal`. -/
def ModalState.init : ModalState :=
  { url := "", targetPrice := "", email := "", frequency := "DAILY", loading := false,
    error := "", step := 1 }

/-- What a handler does to the outside, in order. -/
inductive Event where
  | request (r : HttpRequest)
  | consoleError (label : String)
  | onAdded
  deriving DecidableEq

/-- The state a handler runs in: the cells of `App`, the cells of `AddProductModal`, and the
events so far. -/
structure Sys where
  app : AppState
  modal : ModalState
  events : List Event
  deriving DecidableEq

/-- A handler: a computation over `Sys` that may end with a thrown error. -/
abbrev Handler := ExceptT AxiosError (StateM Sys)

/-- Record an event. -/
def emit (e : Event) : Handler Unit :=
  modify (fun w => { w with events := w.events ++ [e] })

/-- Issue a request and wait for it: the request is recorded, then the outcome is returned
or thrown. -/
def await {α : Type} (r : HttpRequest) (outcome : Except AxiosError α) : Handler α := do
  emit (Event.request r)
  match outcome with
  | Except.ok a => pure a
  | Except.error e => throw e

/-- The statement `console.error(label, error)`. -/
def consoleError (label : String) : Handler Unit := emit (Event.consoleError label)

/-- The setter `setProducts`. -/
def setProducts (ps : List Product) : Handler Unit :=
  modify (fun w => { w with app := { w.app with products := ps } })

/-- The setter `setLoading` of `App`. -/
def setLoading (b : Bool) : Handler Unit :=
  modify (fun w => { w with app := { w.app with loading := b } })

/-- The setter `setSelectedProduct`. -/
def setSelectedProduct (p : Option Product) : Handler Unit :=
  modify (fun w => { w with app := { w.app with selectedProduct := p } })

/-- The function `fetchProducts` of `App`. -/
def fetchProducts (srv : Server) : Handler Unit := do
  try
    let response ← await productService.getAllProducts srv.getAllProducts
    setProducts response
    setLoading false
  catch _ =>
    consoleError "Error fetching products:"
    setLoading false

/-- The test `selectedProduct && selectedProduct.id === id`. -/
def isSelected (selectedProduct : Option Product) (id : ProductId) : Bool :=
  match selectedProduct with
  | some p => decide (p.id = id)
  | none => false

/-- The function `handleManualScrape` of `App`. The handler reads the `selectedProduct` of
the render that created it. -/
def handleManualScrape (srv : Server) (id : ProductId) : Handler Unit := do
  let selectedProduct := (← get).app.selectedProduct
  try
    await (productService.scrapeProduct id) (srv.scrapeProduct id)
    fetchProducts srv
    if isSelected selectedProduct id then
      let updated ← await (productService.getProduct id) (srv.getProduct id)
      setSelectedProduct (some updated)
  catch _ =>
    consoleError "Error scraping product:"

/-- The function `handleDelete` of `App`. -/
def handleDelete (srv : Server) (id : ProductId) : Handler Unit := do
  let selectedProduct := (← get).app.selectedProduct
  if srv.confirm then
    try
      await (productService.deleteProduct id) (srv.deleteProduct id)
      fetchProducts srv
      if isSelected selectedProduct id then
        setSelectedProduct none
    catch _ =>
      consoleError "Error deleting product:"

namespace AddProductModal

/-- The setter `setError`. -/
def setError (e : String) : Handler Unit :=
  modify (fun w => { w with modal := { w.modal with error := e } })

/-- The setter `setLoading` of the modal. -/
def setLoading (b : Bool) : Handler Unit :=
  modify (fun w => { w with modal := { w.modal with loading := b } })

/-- The setter `setStep`. -/
def setStep (n : Nat) : Handler Unit :=
  modify (fun w => { w with modal := { w.modal with step := n } })

/-- The fixed text shown when a failed request carries no message. -/
def fallbackError : String := "Failed to add product. Please check the URL and try again."

/-- The expression `err.response?.data?.message || 'Failed to add product. ...'`: the
message when it is truthy, that is a non-empty string. -/
def errorText (err : AxiosError) : String :=
  match err.message with
  | some m => if m = "" then fallbackError else m
  | none => fallbackError

/-- The object literal handed to `productService.addProduct`:
`targetPrice ? parseFloat(targetPrice) : null` tests the string for being non-empty. -/
def submitData (m : ModalState) : AddProductData :=
  { url := m.url
    targetPrice := if m.targetPrice ≠ "" then JSVal.num (parseFloat m.targetPrice) else JSVal.null
    alertEmail := m.email
    scrapeFrequency := m.frequency }

/-- The function `handleSubmit` of `AddProductModal`; `onAdded` is the callback prop. -/
def handleSubmit (srv : Server) (onAdded : Handler Unit) : Handler Unit := do
  let m := (← get).modal
  setError ""
  setLoading true
  try
    await (productService.addProduct (submitData m)) (srv.addProduct (submitData m))
    setStep 2
    emit Event.onAdded
    onAdded
  catch err =>
    consoleError "Error adding product:"
    setError (errorText err)
  finally
    setLoading false

end AddProductModal

/-- The `handleSubmit` of the modal as `App` mounts it: `onAdded={fetchProducts}`. -/
def App.handleSubmit (srv : Server) : Handler Unit :=
  AddProductModal.handleSubmit srv (fetchProducts srv)

/-- Run a handler from a state: the final state, and the error if one escaped. -/
def Handler.runFrom {α : Type} (h : Handler α) (w : Sys) : Except AxiosError α × Sys :=
  (ExceptT.run h).run w

/-! ## Specification-side definitions -/

/-- Spec: `currentPrice < avgPrice`, both read as numbers. -/
def PriceDrop (p : Product) : Prop :=
  ∃ c a : ℚ, p.currentPrice.toNumber = JSNumber.fin c ∧ p.avgPrice.toNumber = JSNumber.fin a ∧ c < a

/-- Spec: the product is shown for search text `q` and filter mode `mode`: the lower-cased
name contains the lower-cased `q` as a substring, and in mode `ACTIVE` the product is active,
in mode `PRICE_DROP` its current price is below its average price. -/
def Shown (toLowerCase : String → String) (q mode : String) (p : Product) : Prop :=
  (∃ pre suf : List Char, (toLowerCase p.name).data = pre ++ (toLowerCase q).data ++ suf) ∧
  (mode = "ACTIVE" → p.active = true) ∧
  (mode = "PRICE_DROP" → PriceDrop p)

/-- Spec: the amount `max(maxPrice - currentPrice, 0)` a product adds to the savings, the
difference being the JavaScript one (`null` is read as 0, an absent price gives no number). -/
def savingsAmount (p : Product) : JSNumber :=
  JSNumber.max0 (JSNumber.sub p.maxPrice.toNumber p.currentPrice.toNumber)

/-- Spec: the same amount in exact arithmetic: `max(m - c, 0)` for the two prices as
rationals, and 0 when one of them is absent. -/
def savingsExact (p : Product) : ℚ :=
  match p.maxPrice.toNumber, p.currentPrice.toNumber with
  | JSNumber.fin m, JSNumber.fin c => max (m - c) 0
  | _, _ => 0

/-- Spec: the price history, an external record of price observations for every product. -/
abbrev PriceHistory := ProductId → List PricePoint

/-- Spec: the data the chart of a product is to show: the real history of the product when
there is one, and the synthetic series only as a fallback when there is none. -/
def chartDataSpec (history : PriceHistory) (product : Product) (clock : Nat → Int) :
    List PricePoint :=
  if history product.id = [] then mockChartData product clock else history product.id

/-- The requests among a list of events, in order. -/
def requestsOf (events : List Event) : List HttpRequest :=
  events.filterMap (fun e => match e with
    | Event.request r => some r
    | _ => none)

/-! ## Example data -/

/-- A lower-casing that maps the letters `A` to `Z` only. -/
def Example.asciiLower (s : String) : String := String.mk (s.data.map Char.toLower)

/-- A product with a price history summary. -/
def Example.phone : Product :=
  { id := ProductId.num 1, name := "Pixel Phone", active := true,
    currentPrice := PriceField.num 500, avgPrice := PriceField.num 550,
    minPrice := PriceField.num 480, maxPrice := PriceField.num 620,
    targetPrice := PriceField.num 450, sourceSite := "Amazon",
    productUrl := "https://www.amazon.in/dp/B0PHONE", scrapeFrequency := "DAILY",
    alertEmail := "a@example.com" }

/-- A product that was never scraped: every price is `null`. -/
def Example.lamp : Product :=
  { id := ProductId.num 2, name := "Desk Lamp", active := false,
    currentPrice := PriceField.null, avgPrice := PriceField.null,
    minPrice := PriceField.null, maxPrice := PriceField.null,
    targetPrice := PriceField.null, sourceSite := "Flipkart",
    productUrl := "https://www.flipkart.com/lamp", scrapeFrequency := "HOURLY",
    alertEmail := "" }

/-- A dashboard state with two products, no search text and the filter `ALL`. -/
def Example.dashboard : AppState :=
  { products := [Example.phone, Example.lamp], loading := false, selectedProduct := none,
    isAddModalOpen := false, searchQuery := "", filterMode := "ALL" }

/-- A clock that stands still during a render. -/
def Example.clock : Nat → Int := fun _ => 1700000000000

/-- A real price history of the phone, as `GET /api/products/1/prices` would return it. -/
def Example.history : List PricePoint :=
  [ { price := JSVal.num (JSNumber.fin 620), scrapedAt := 1699000000000 },
    { price := JSVal.num (JSNumber.fin 500), scrapedAt := 1699900000000 } ]

/-- The price history the server holds: the two observations of `Example.history` for the
phone (product 1), and nothing for any other product. -/
def Example.priceHistory : PriceHistory :=
  fun id => if id = ProductId.num 1 then Example.history else []

/-- A product without a maximum price (`null`) whose current price is negative. -/
def Example.refund : Product :=
  { id := ProductId.num 4, name := "Refund", active := false,
    currentPrice := PriceField.num (-5), avgPrice := PriceField.null,
    minPrice := PriceField.null, maxPrice := PriceField.null,
    targetPrice := PriceField.null, sourceSite := "Flipkart",
    productUrl := "https://www.flipkart.com/refund", scrapeFrequency := "DAILY",
    alertEmail := "" }

/-- A product seen at `2 ^ 53` that is now free. -/
def Example.jet : Product :=
  { id := ProductId.num 5, name := "Jet", active := true,
    currentPrice := PriceField.num 0, avgPrice := PriceField.num 0,
    minPrice := PriceField.num 0, maxPrice := PriceField.num 9007199254740992,
    targetPrice := PriceField.null, sourceSite := "Amazon",
    productUrl := "https://www.amazon.in/dp/B0JET", scrapeFrequency := "DAILY",
    alertEmail := "" }

/-- A product seen at 1 that is now free. -/
def Example.sweet : Product :=
  { id := ProductId.num 6, name := "Sweet", active := true,
    currentPrice := PriceField.num 0, avgPrice := PriceField.num 0,
    minPrice := PriceField.num 0, maxPrice := PriceField.num 1,
    targetPrice := PriceField.null, sourceSite := "Amazon",
    productUrl := "https://www.amazon.in/dp/B0SWEET", scrapeFrequency := "DAILY",
    alertEmail := "" }

/-- The page right after the first fetch was answered with the two example products; the
phone is selected. -/
def Example.page : Sys :=
  { app := { Example.dashboard with selectedProduct := some Example.phone },
    modal := ModalState.init, events := [] }

/-- The page with the add-product form filled in, the target price being `0`. -/
def Example.formPage : Sys :=
  { app := Example.dashboard,
    modal := { ModalState.init with url := "https://www.amazon.in/dp/B0PHONE",
                                    targetPrice := "0", email := "a@example.com" },
    events := [] }

/-- A server that accepts every request; the user confirms. The phone has dropped to 480. -/
def Example.server : Server :=
  { confirm := true
    getAllProducts := Except.ok [Example.phone]
    getProduct := fun _ => Except.ok { Example.phone with currentPrice := PriceField.num 480 }
    deleteProduct := fun _ => Except.ok ()
    scrapeProduct := fun _ => Except.ok ()
    addProduct := fun _ => Except.ok () }

/-- A server that rejects every request; the rejection of `addProduct` carries the empty
message. -/
def Example.failingServer : Server :=
  { confirm := true
    getAllProducts := Except.error { message := none }
    getProduct := fun _ => Except.error { message := none }
    deleteProduct := fun _ => Except.error { message := none }
    scrapeProduct := fun _ => Except.error { message := none }
    addProduct := fun _ => Except.error { message := some "" } }

/-! ## The routes behind the wrappers -/

/-- The wrapper functions of `services/api.js`, by name. -/
inductive Wrapper where
  | getAllProducts
  | getActiveProducts
  | getProduct
  | addProduct
  | deleteProduct
  | updateTargetPrice
  | updateActiveStatus
  | scrapeProduct
  | getSupportedSites
  | checkUrl
  | getHistory
  | getAllHistory
  | getAnalytics
  | getAlertsForProduct
  | getPendingAlerts
  deriving DecidableEq

/-- The wrapper function a call goes through. -/
def ServiceCall.wrapper : ServiceCall → Wrapper
  | ServiceCall.getAllProducts => Wrapper.getAllProducts
  | ServiceCall.getActiveProducts => Wrapper.getActiveProducts
  | ServiceCall.getProduct _ => Wrapper.getProduct
  | ServiceCall.addProduct _ => Wrapper.addProduct
  | ServiceCall.deleteProduct _ => Wrapper.deleteProduct
  | ServiceCall.updateTargetPrice _ _ => Wrapper.updateTargetPrice
  | ServiceCall.updateActiveStatus _ _ => Wrapper.updateActiveStatus
  | ServiceCall.scrapeProduct _ => Wrapper.scrapeProduct
  | ServiceCall.getSupportedSites => Wrapper.getSupportedSites
  | ServiceCall.checkUrl _ => Wrapper.checkUrl
  | ServiceCall.getHistory _ _ => Wrapper.getHistory
  | ServiceCall.getAllHistory _ => Wrapper.getAllHistory
  | ServiceCall.getAnalytics _ _ => Wrapper.getAnalytics
  | ServiceCall.getAlertsForProduct _ => Wrapper.getAlertsForProduct
  | ServiceCall.getPendingAlerts => Wrapper.getPendingAlerts

/-- The identifier argument of a call, when the wrapper takes one. -/
def ServiceCall.id? : ServiceCall → Option ProductId
  | ServiceCall.getProduct id => some id
  | ServiceCall.deleteProduct id => some id
  | ServiceCall.updateTargetPrice id _ => some id
  | ServiceCall.updateActiveStatus id _ => some id
  | ServiceCall.scrapeProduct id => some id
  | ServiceCall.getHistory id _ => some id
  | ServiceCall.getAllHistory id => some id
  | ServiceCall.getAnalytics id _ => some id
  | ServiceCall.getAlertsForProduct id => some id
  | _ => none

/-- Spec: the identifier argument of the call, if it has one, is a non-negative integer. -/
def ServiceCall.HasNatId (c : ServiceCall) : Prop :=
  ∀ id, c.id? = some id → ∃ n : Nat, id = ProductId.num (Int.ofNat n)

/-- The wrapper a request with a numeric identifier in its path comes from, read off the
method and the text `r` that follows the digits after `/api/products/`. -/
def routeOfItem (method : Method) (r : List Char) : Option Wrapper :=
  match method with
  | Method.GET =>
    if r = [] then some Wrapper.getProduct
    else if r = "/prices/all".data then some Wrapper.getAllHistory
    else if "/prices?days=".data.isPrefixOf r then some Wrapper.getHistory
    else if "/analytics?days=".data.isPrefixOf r then some Wrapper.getAnalytics
    else none
  | Method.POST => if r = "/scrape".data then some Wrapper.scrapeProduct else none
  | Method.DELETE => if r = [] then some Wrapper.deleteProduct else none
  | Method.PATCH =>
    if r = "/target-price".data then some Wrapper.updateTargetPrice
    else if r = "/active".data then some Wrapper.updateActiveStatus
    else none

/-- The wrapper a request without a numeric identifier after `/api/products/` comes from. -/
def routeOfFixed (method : Method) (url : List Char) : Option Wrapper :=
  match method with
  | Method.GET =>
    if url = "/api/products".data then some Wrapper.getAllProducts
    else if url = "/api/products/active".data then some Wrapper.getActiveProducts
    else if url = "/api/products/supported-sites".data then some Wrapper.getSupportedSites
    else if "/api/products/check-url?url=".data.isPrefixOf url then some Wrapper.checkUrl
    else if url = "/api/alerts/pending".data then some Wrapper.getPendingAlerts
    else if "/api/alerts/product/".data.isPrefixOf url then some Wrapper.getAlertsForProduct
    else none
  | Method.POST => if url = "/api/products".data then some Wrapper.addProduct else none
  | _ => none

/-- A router for the requests of the wrappers: it names the wrapper from the method and the
URL alone. The URL is split after `/api/products/` into a run of digits and the rest. -/
def routeOf (method : Method) (url : String) : Option Wrapper :=
  if "/api/products/".data.isPrefixOf url.data ∧
      (url.data.drop 14).takeWhile Char.isDigit ≠ [] then
    routeOfItem method ((url.data.drop 14).dropWhile Char.isDigit)
  else routeOfFixed method url.data

/-! ## Module scope of `App.jsx` and the detail overlay -/

/-- The names bound at the top level of `App.jsx`: the imports of lines 1 to 22 and the
constant `App` itself. -/
def App.boundNames : List String :=
  ["React", "useState", "useEffect", "BarChart3", "Plus", "RefreshCw", "TrendingDown",
    "Activity", "Package", "Bell", "Search", "LayoutGrid", "List", "Filter", "X", "Target",
    "ArrowRight", "History", "productService", "ProductCard", "AddProductModal", "PriceChart",
    "App"]

/-- The component identifiers in the JSX tags of the detail overlay (lines 221 to 351 of
`App.jsx`), in the order in which rendering evaluates them. -/
def App.overlayComponents : List String :=
  ["History", "ExternalLink", "X", "BarChart3", "PriceChart", "Clock", "Mail", "RefreshCw",
    "Trash2"]

/-- Evaluation of the identifiers of a run of JSX tags against the names in scope: the first
one that is not bound throws a `ReferenceError`. -/
def evalComponents (bound : List String) : List String → Except String Unit
  | [] => Except.ok ()
  | c :: cs =>
    if bound.contains c then evalComponents bound cs
    else Except.error ("ReferenceError: " ++ c ++ " is not defined")

/-- Rendering of `{selectedProduct && ( ... )}`: nothing without a selection, the overlay
with one. -/
def App.renderOverlay (selectedProduct : Option Product) : Except String Unit :=
  match selectedProduct with
  | none => Except.ok ()
  | some _ => evalComponents App.boundNames App.overlayComponents

/-! ## The component `PriceChart` -/

/-- A point of `chartData`: `{ time, price, fullDate }`. -/
structure ChartPoint where
  time : String
  price : JSVal
  fullDate : String
  deriving DecidableEq

/-- What `PriceChart` renders: the placeholder with its text, or the area chart over
`chartData`. -/
inductive ChartView where
  | placeholder (text : String)
  | chart (chartData : List ChartPoint)
  deriving DecidableEq

/-- The component `PriceChart`. The `data` prop is `none` when it is `undefined` or `null`.
The two date formats depend on the locale of the browser and are parameters. -/
def PriceChart (toLocaleDateString toLocaleString : Int → String)
    (data : Option (List PricePoint)) : ChartView :=
  match data with
  | none => ChartView.placeholder "Not enough data to generate pulse"
  | some items =>
    if items.length = 0 then ChartView.placeholder "Not enough data to generate pulse"
    else ChartView.chart (items.map (fun item =>
      { time := toLocaleDateString item.scrapedAt, price := item.price,
        fullDate := toLocaleString item.scrapedAt }))

/-! ## The product grid and the card -/

/-- What the product grid of `App` shows: the spinner, the empty state with its paragraph, or
one card per product. -/
inductive GridView where
  | loading
  | empty (message : String)
  | cards (products : List Product)
  deriving DecidableEq

/-- The paragraph of the empty state when there is no search text. -/
def idleMessage : String :=
  "Your tracking engine is currently idle. Let's add some products to monitor the e-commerce pulse."

/-- The paragraph of the empty state when there is a search text. -/
def noMatchMessage (searchQuery : String) : String :=
  "We couldn't find any products matching " ++ String.singleton (Char.ofNat 34) ++ searchQuery
    ++ String.singleton (Char.ofNat 34) ++ ". Maybe try a different search?"

/-- The product grid of `App` (lines 178 to 217). -/
def productGrid (toLowerCase : String → String) (s : AppState) : GridView :=
  if s.loading then GridView.loading
  else if (filteredProducts toLowerCase s).length = 0 then
    GridView.empty (if s.searchQuery ≠ "" then noMatchMessage s.searchQuery else idleMessage)
  else GridView.cards (filteredProducts toLowerCase s)

/-- The truthiness of a price field: a number other than zero. -/
def PriceField.truthy : PriceField → Bool
  | PriceField.num q => decide (q ≠ 0)
  | _ => false

/-- The JavaScript `a || b` on price fields. -/
def PriceField.or (a b : PriceField) : PriceField :=
  if a.truthy then a else b

/-- The constant `hasLowerPrice` of `ProductCard`:
`product.currentPrice < (product.avgPrice || product.currentPrice)`. -/
def ProductCard.hasLowerPrice (product : Product) : Bool :=
  PriceField.lt product.currentPrice (PriceField.or product.avgPrice product.currentPrice)

/-- The state of one `ProductCard`: the cell `isScraping`, and the values `setIsScraping`
was called with, in order. -/
structure CardState where
  isScraping : Bool
  writes : List Bool
  deriving DecidableEq

/-- The setter `setIsScraping`. -/
def CardState.setIsScraping (card : CardState) (b : Bool) : CardState :=
  { isScraping := b, writes := card.writes ++ [b] }

/-- The function `handleScrape` of `ProductCard`:
`setIsScraping(true); await onScrape(product.id); setIsScraping(false)`. A rejection of the
awaited call ends the handler before the last statement. -/
def ProductCard.handleScrape (onScrape : ProductId → Handler Unit) (product : Product)
    (card : CardState) (w : Sys) : Except AxiosError Unit × CardState × Sys :=
  match (onScrape product.id).runFrom w with
  | (Except.ok _, w1) => (Except.ok (), (card.setIsScraping true).setIsScraping false, w1)
  | (Except.error e, w1) => (Except.error e, card.setIsScraping true, w1)

/-! ## Price labels -/

/-- The expression `x?.toLocaleString()`: `none` (the value `undefined`) when the field is
`undefined` or `null`. The format of a number depends on the locale and is a parameter. -/
def localeString? (toLocaleString : ℚ → String) : PriceField → Option String
  | PriceField.num q => some (toLocaleString q)
  | _ => none

/-- The expression `v || placeholder` for a string `v` that may be `undefined`. -/
def orPlaceholder (v : Option String) (placeholder : String) : String :=
  match v with
  | some s => if s ≠ "" then s else placeholder
  | none => placeholder

/-- The text a template literal inserts for a string that may be `undefined`. -/
def interpolate : Option String → String
  | some s => s
  | none => "undefined"

/-- The current-price text of the card: `₹{product.currentPrice?.toLocaleString() || 'N/A'}`. -/
def ProductCard.currentPriceText (toLocaleString : ℚ → String) (product : Product) : String :=
  "₹" ++ orPlaceholder (localeString? toLocaleString product.currentPrice) "N/A"

/-- The target text of the card: `₹{product.targetPrice?.toLocaleString() || '---'}`. -/
def ProductCard.targetPriceText (toLocaleString : ℚ → String) (product : Product) : String :=
  "₹" ++ orPlaceholder (localeString? toLocaleString product.targetPrice) "---"

/-- The label and value of one entry of the detail statistics. -/
structure DetailStat where
  label : String
  value : String
  deriving DecidableEq

/-- The array of detail statistics of the overlay (lines 267 to 272 of `App.jsx`). -/
def App.detailStats (toLocaleString : ℚ → String) (selectedProduct : Product) :
    List DetailStat :=
  [ { label := "Current Price",
      value := "₹" ++ interpolate (localeString? toLocaleString selectedProduct.currentPrice) },
    { label := "Lowest Seen",
      value := "₹" ++ orPlaceholder (localeString? toLocaleString selectedProduct.minPrice) "N/A" },
    { label := "Highest Seen",
      value := "₹" ++ orPlaceholder (localeString? toLocaleString selectedProduct.maxPrice) "N/A" },
    { label := "Target Set",
      value := "₹" ++ orPlaceholder (localeString? toLocaleString selectedProduct.targetPrice) "---" } ]

/-! ## The add-product modal as a state machine -/

/-- The modal as `App` mounts it: the prop `isOpen`, the cells of the component (they live
as long as `App` does, the component only renders nothing while it is closed), and whether a
submission is waiting for its response. -/
structure ModalMachine where
  isOpen : Bool
  form : ModalState
  inFlight : Bool
  deriving DecidableEq

/-- What can happen to the modal. -/
inductive ModalEvent where
  | open
  | setUrl (value : String)
  | setTargetPrice (value : String)
  | setEmail (value : String)
  | setFrequency (value : String)
  | startSubmit
  | resolveSuccess
  | resolveFailure (err : AxiosError)
  | handleReset
  deriving DecidableEq

/-- The modal when `App` is mounted: closed, with the initial cells. -/
def ModalMachine.init : ModalMachine :=
  { isOpen := false, form := ModalState.init, inFlight := false }

/-- One event. The result is `none` when the event cannot happen in the state: the fields
and the form exist only while the modal is open on step 1, the submit button is disabled
while `loading`, the URL input is `required`, the closing controls exist only while the
modal is open, and a response needs a request in flight.
`startSubmit` is `handleSubmit` up to its `await`; `resolveSuccess` and `resolveFailure` are
its continuation; `handleReset` is the function of that name followed by `onClose`. -/
def ModalMachine.step (s : ModalMachine) : ModalEvent → Option ModalMachine
  | ModalEvent.open => some { s with isOpen := true }
  | ModalEvent.setUrl v =>
    if s.isOpen ∧ s.form.step = 1 then some { s with form := { s.form with url := v } }
    else none
  | ModalEvent.setTargetPrice v =>
    if s.isOpen ∧ s.form.step = 1 then some { s with form := { s.form with targetPrice := v } }
    else none
  | ModalEvent.setEmail v =>
    if s.isOpen ∧ s.form.step = 1 then some { s with form := { s.form with email := v } }
    else none
  | ModalEvent.setFrequency v =>
    if s.isOpen ∧ s.form.step = 1 then some { s with form := { s.form with frequency := v } }
    else none
  | ModalEvent.startSubmit =>
    if s.isOpen ∧ s.form.step = 1 ∧ s.form.loading = false ∧ s.form.url ≠ "" then
      some { s with form := { s.form with error := "", loading := true }, inFlight := true }
    else none
  | ModalEvent.resolveSuccess =>
    if s.inFlight then
      some { s with form := { s.form with step := 2, loading := false }, inFlight := false }
    else none
  | ModalEvent.resolveFailure err =>
    if s.inFlight then
      some { s with form := { s.form with error := AddProductModal.errorText err,
                                          loading := false }, inFlight := false }
    else none
  | ModalEvent.handleReset =>
    if s.isOpen then
      some { s with isOpen := false,
                    form := { s.form with url := "", targetPrice := "", email := "",
                                          frequency := "DAILY", error := "", step := 1 } }
    else none

/-- A sequence of events from a state; `none` when one of them cannot happen. -/
def ModalMachine.run (s : ModalMachine) : List ModalEvent → Option ModalMachine
  | [] => some s
  | e :: es =>
    match s.step e with
    | some s1 => s1.run es
    | none => none

/-- A product that is tracked and has not dropped below its average price. -/
def Example.tablet : Product :=
  { id := ProductId.num 3, name := "Slate Tablet", active := true,
    currentPrice := PriceField.num 600, avgPrice := PriceField.num 550,
    minPrice := PriceField.num 500, maxPrice := PriceField.num 650,
    targetPrice := PriceField.undefined, sourceSite := "Amazon",
    productUrl := "https://www.amazon.in/dp/B0TABLET", scrapeFrequency := "DAILY",
    alertEmail := "a@example.com" }

/-- The dashboard with the tablet alone, no search text, and the filter `PRICE_DROP`. -/
def Example.priceDropDashboard : AppState :=
  { products := [Example.tablet], loading := false, selectedProduct := none,
    isAddModalOpen := false, searchQuery := "", filterMode := "PRICE_DROP" }

/-- The events of the example: the modal is opened, a URL is typed, the form is submitted
and the modal is closed while the request is in flight. -/
def Example.closeWhileInFlight : List ModalEvent :=
  [ModalEvent.open, ModalEvent.setUrl "https://www.amazon.in/dp/B0PHONE", ModalEvent.startSubmit,
    ModalEvent.handleReset]

/-! ## Lemmas on the embedded built-ins -/

theorem includesList_iff (s t : List Char) : includesList s t = true ↔ t <:+: s := by
  induction s with
  | nil => simp [includesList, List.isEmpty_iff]
  | cons c s ih =>
    simp only [includesList, Bool.or_eq_true, ih, List.infix_cons_iff, List.isPrefixOf_iff_prefix]

theorem includes_iff (s t : String) :
    includes s t = true ↔ ∃ pre suf : List Char, s.data = pre ++ t.data ++ suf := by
  unfold includes
  rw [includesList_iff]
  constructor
  · rintro ⟨pre, suf, h⟩
    exact ⟨pre, suf, h.symm⟩
  · rintro ⟨pre, suf, h⟩
    exact ⟨pre, suf, h.symm⟩

theorem PriceField.lt_iff (x y : PriceField) :
    PriceField.lt x y = true ↔
      ∃ c a : ℚ, x.toNumber = JSNumber.fin c ∧ y.toNumber = JSNumber.fin a ∧ c < a := by
  cases x <;> cases y <;> simp [PriceField.lt, PriceField.toNumber, JSNumber.lt]

theorem priceDrop_iff (p : Product) :
    PriceField.lt p.currentPrice p.avgPrice = true ↔ PriceDrop p :=
  PriceField.lt_iff _ _

theorem matchesFilter_iff (toLowerCase : String → String) (q mode : String) (p : Product) :
    matchesFilter toLowerCase q mode p = true ↔ Shown toLowerCase q mode p := by
  unfold matchesFilter Shown
  by_cases h1 : mode = "ACTIVE"
  · subst h1
    simp [includes_iff]
  · by_cases h2 : mode = "PRICE_DROP"
    · subst h2
      simp [includes_iff, priceDrop_iff]
    · simp [h1, h2, includes_iff]

/-! ## C1: the filtered product list -/

/-- C1: for every product list, search text and filter mode, `filteredProducts` is the
product list filtered, in its original order, by a test that holds exactly for the products
whose lower-cased name contains the lower-cased search text and that, in mode `ACTIVE`, are
active or, in mode `PRICE_DROP`, have `currentPrice < avgPrice`; in any other mode only the
name test applies; with an empty search text and mode `ALL` the result is the whole list
(the lower-casing of the empty string being the empty string). -/
theorem C1_filteredProducts_spec (toLowerCase : String → String) (s : AppState) :
    (∃ keep : Product → Bool,
      (∀ p, keep p = true ↔ Shown toLowerCase s.searchQuery s.filterMode p) ∧
      filteredProducts toLowerCase s = s.products.filter keep) ∧
    (filteredProducts toLowerCase s).Sublist s.products ∧
    (∀ p, p ∈ filteredProducts toLowerCase s ↔
      p ∈ s.products ∧ Shown toLowerCase s.searchQuery s.filterMode p) ∧
    (s.filterMode ≠ "ACTIVE" → s.filterMode ≠ "PRICE_DROP" →
      ∀ p, p ∈ filteredProducts toLowerCase s ↔ p ∈ s.products ∧
        ∃ pre suf : List Char,
          (toLowerCase p.name).data = pre ++ (toLowerCase s.searchQuery).data ++ suf) ∧
    (toLowerCase "" = "" → s.searchQuery = "" → s.filterMode = "ALL" →
      filteredProducts toLowerCase s = s.products) := by
  refine ⟨⟨matchesFilter toLowerCase s.searchQuery s.filterMode,
    fun p => matchesFilter_iff _ _ _ p, rfl⟩, List.filter_sublist _, ?_, ?_, ?_⟩
  · intro p
    simp [filteredProducts, List.mem_filter, matchesFilter_iff]
  · intro h1 h2 p
    simp [filteredProducts, List.mem_filter, matchesFilter_iff, Shown, h1, h2]
  · intro h0 hq hm
    unfold filteredProducts
    rw [List.filter_eq_self]
    intro p _
    rw [matchesFilter_iff, hq, hm]
    unfold Shown
    rw [h0]
    refine ⟨⟨[], (toLowerCase p.name).data, by simp⟩, ?_, ?_⟩ <;> intro h <;> exact absurd h (by decide)

/-- C1, at an instance: with the ASCII lower-casing, no search text and mode `ALL`, the two
example products are both shown. -/
theorem C1_filteredProducts_spec_witness :
    filteredProducts Example.asciiLower Example.dashboard = [Example.phone, Example.lamp] :=
  (C1_filteredProducts_spec Example.asciiLower Example.dashboard).2.2.2.2 (by decide) rfl rfl

/-! ## C2: the estimated savings -/

theorem roundHalfEven_natCast (n : ℕ) : roundHalfEven (n : ℚ) = n := by
  unfold roundHalfEven
  rw [Nat.floor_natCast]
  simp

theorem roundMagnitude_nonneg (a : ℚ) : 0 ≤ roundMagnitude a := by
  unfold roundMagnitude
  positivity

/-- Rounding leaves a whole number up to `2 ^ 53` as it is. -/
theorem roundMagnitude_natCast (n : ℕ) (h1 : 1 ≤ n) (h2 : n ≤ 2 ^ 53) :
    roundMagnitude (n : ℚ) = n := by
  have hlog : Int.log 2 (n : ℚ) = (Nat.log 2 n : ℤ) := Int.log_natCast 2 n
  have hL : Nat.log 2 n < 54 := Nat.log_lt_of_lt_pow (by omega) (by omega)
  have hk : ulpExponent (n : ℚ) = (Nat.log 2 n : ℤ) - 52 := by
    unfold ulpExponent
    rw [hlog]
    congr 1
    exact max_eq_left (by omega)
  unfold roundMagnitude
  rw [hk]
  by_cases hcase : Nat.log 2 n ≤ 52
  · obtain ⟨j, hj⟩ : ∃ j : ℕ, (Nat.log 2 n : ℤ) - 52 = -(j : ℤ) := ⟨52 - Nat.log 2 n, by omega⟩
    rw [hj, zpow_neg, zpow_natCast, div_inv_eq_mul]
    have hcast : (n : ℚ) * 2 ^ j = ((n * 2 ^ j : ℕ) : ℚ) := by push_cast; ring
    rw [hcast, roundHalfEven_natCast]
    push_cast
    field_simp
  · have h53 : Nat.log 2 n = 53 := by omega
    have hn : 2 ^ 53 ≤ n := by
      have := Nat.pow_log_le_self 2 (show n ≠ 0 by omega)
      rw [h53] at this
      exact this
    have hn' : n = 2 ^ 53 := le_antisymm h2 hn
    rw [h53]
    subst hn'
    have hcast : (((2 ^ 53 : ℕ) : ℚ)) / (2 : ℚ) ^ (((53 : ℕ) : ℤ) - 52) = ((2 ^ 52 : ℕ) : ℚ) := by
      norm_num
    rw [hcast, roundHalfEven_natCast]
    norm_num

/-- A whole number of magnitude up to `2 ^ 53` is a binary64 number: rounding leaves it. -/
theorem round64_intCast (z : ℤ) (h : |z| ≤ 2 ^ 53) :
    JSNumber.round64 (z : ℚ) = JSNumber.fin z := by
  unfold JSNumber.round64
  by_cases hz : z = 0
  · subst hz
    simp
  · have hq : (z : ℚ) ≠ 0 := by exact_mod_cast hz
    have habs : |(z : ℚ)| = ((z.natAbs : ℕ) : ℚ) := by
      rw [Int.cast_natAbs, Int.cast_abs]
    have hn1 : 1 ≤ z.natAbs := Int.natAbs_pos.mpr hz
    have hn2 : z.natAbs ≤ 2 ^ 53 := by
      have : (z.natAbs : ℤ) ≤ 2 ^ 53 := by rw [← Int.abs_eq_natAbs]; exact h
      exact_mod_cast this
    have hmag := roundMagnitude_natCast z.natAbs hn1 hn2
    rw [if_neg hq, habs, hmag]
    have hlt : ¬ (2 : ℚ) ^ (1024 : ℕ) ≤ ((z.natAbs : ℕ) : ℚ) := by
      rw [not_le]
      have h1 : ((z.natAbs : ℕ) : ℚ) ≤ 2 ^ 53 := by exact_mod_cast hn2
      have h2 : (2 : ℚ) ^ 53 < 2 ^ 1024 := by norm_num
      exact lt_of_le_of_lt h1 h2
    rw [if_neg hlt]
    congr 1
    by_cases hpos : 0 < z
    · have : (0 : ℚ) < z := by exact_mod_cast hpos
      rw [if_pos this, ← habs, abs_of_pos this]
    · have hneg : z < 0 := lt_of_le_of_ne (not_lt.mp hpos) hz
      have : ¬ (0 : ℚ) < z := by
        have : (z : ℚ) < 0 := by exact_mod_cast hneg
        exact not_lt.mpr (le_of_lt this)
      rw [if_neg this, ← habs, abs_of_neg (by exact_mod_cast hneg)]
      ring

/-- The sum `2 ^ 53 + 1` lies half-way between two binary64 numbers and rounds to the even
one, `2 ^ 53`. -/
theorem round64_tie : JSNumber.round64 (2 ^ 53 + 1) = JSNumber.fin (2 ^ 53) := by
  have hlog : Int.log 2 ((2 : ℚ) ^ 53 + 1) = 53 := by
    have h : ((2 : ℚ) ^ 53 + 1) = ((2 ^ 53 + 1 : ℕ) : ℚ) := by norm_num
    rw [h, Int.log_natCast]
    have : Nat.log 2 (2 ^ 53 + 1) = 53 := by
      rw [Nat.log_eq_iff (by norm_num)]
      norm_num
    rw [this]
    rfl
  have hk : ulpExponent ((2 : ℚ) ^ 53 + 1) = 1 := by
    unfold ulpExponent
    rw [hlog]
    norm_num
  have hfloor : ⌊((2 : ℚ) ^ 53 + 1) / 2⌋₊ = 2 ^ 52 := by
    rw [Nat.floor_eq_iff (by positivity)]
    norm_num
  have hmag : roundMagnitude ((2 : ℚ) ^ 53 + 1) = 2 ^ 53 := by
    unfold roundMagnitude roundHalfEven
    rw [hk, zpow_one, hfloor]
    norm_num
  unfold JSNumber.round64
  have habs : |(2 : ℚ) ^ 53 + 1| = 2 ^ 53 + 1 := abs_of_pos (by positivity)
  rw [habs, hmag]
  norm_num

theorem round64_nonneg (q : ℚ) (h : 0 ≤ q) : (JSNumber.round64 q).NonNeg := by
  unfold JSNumber.round64
  split_ifs with h0 h1 h2 h3
  · exact le_refl _
  · trivial
  · exact absurd (lt_of_le_of_ne h (Ne.symm h0)) h2
  · exact roundMagnitude_nonneg _
  · exact absurd (lt_of_le_of_ne h (Ne.symm h0)) h3

theorem round64_not_pos (q : ℚ) (h : q ≤ 0) :
    JSNumber.gt (JSNumber.round64 q) (JSNumber.fin 0) = false := by
  unfold JSNumber.round64
  split_ifs with h0 h1 h2 h3
  · simp [JSNumber.gt, JSNumber.lt]
  · exact absurd h (not_le.mpr h2)
  · rfl
  · exact absurd h (not_le.mpr h3)
  · have := roundMagnitude_nonneg |q|
    simp [JSNumber.gt, JSNumber.lt, this]

theorem savingsTerm_eq (p : Product) : savingsTerm p = savingsAmount p := by
  unfold savingsTerm savingsAmount
  cases hx : JSNumber.sub p.maxPrice.toNumber p.currentPrice.toNumber with
  | nan => rfl
  | posInf => rfl
  | negInf => rfl
  | fin q =>
    simp only [JSNumber.gt, JSNumber.lt, JSNumber.max0, decide_eq_true_eq]
    split_ifs with h
    · rw [max_eq_left (le_of_lt h)]
    · rw [max_eq_right (not_lt.mp h)]

theorem max0_nonneg (x : JSNumber) : (JSNumber.max0 x).NonNeg := by
  cases x <;> simp [JSNumber.max0, JSNumber.NonNeg]

theorem jsAdd_nonNeg (x y : JSNumber) (hx : x.NonNeg) (hy : y.NonNeg) :
    (JSNumber.add x y).NonNeg := by
  cases x <;> cases y <;> simp only [JSNumber.NonNeg] at hx hy <;>
    first
      | trivial
      | exact round64_nonneg _ (add_nonneg hx hy)

theorem foldl_add_nonneg (xs : List JSNumber) (h : ∀ x ∈ xs, x.NonNeg) :
    ∀ acc : JSNumber, acc.NonNeg → (xs.foldl JSNumber.add acc).NonNeg := by
  induction xs with
  | nil =>
    intro acc hacc
    exact hacc
  | cons x xs ih =>
    intro acc hacc
    exact ih (fun y hy => h y (List.mem_cons_of_mem _ hy)) _
      (jsAdd_nonNeg acc x hacc (h x (List.mem_cons_self _ _)))

theorem savings_eq_sum (s : AppState) :
    (stats s).savings = JSNumber.sum (s.products.map savingsAmount) := by
  simp only [stats, JSNumber.sum, List.foldl_map, savingsTerm_eq]

theorem savingsExact_nonneg (p : Product) : 0 ≤ savingsExact p := by
  unfold savingsExact
  split
  · exact le_max_right _ _
  · exact le_refl _

theorem max0_round64_exact (m c : ℚ) (z : ℤ) (hz : m - c = z) (hzb : |z| ≤ 2 ^ 53) :
    JSNumber.max0 (JSNumber.round64 (m - c)) = JSNumber.fin (max (m - c) 0) ∧
    ∃ n : ℕ, max (m - c) 0 = n := by
  rw [hz, round64_intCast z hzb]
  refine ⟨rfl, (max z 0).toNat, ?_⟩
  have h1 : ((max z 0 : ℤ) : ℚ) = max (z : ℚ) 0 := by push_cast; rfl
  rw [← h1]
  have h2 : ((max z 0).toNat : ℤ) = max z 0 := Int.toNat_of_nonneg (le_max_right _ _)
  exact_mod_cast h2.symm

/-- A product whose price difference, when both prices are numbers, is a whole number of
magnitude up to `2 ^ 53` contributes its exact amount. -/
theorem savingsTerm_exact (p : Product)
    (h : ∀ m c : ℚ, p.maxPrice.toNumber = JSNumber.fin m → p.currentPrice.toNumber = JSNumber.fin c →
      ∃ z : ℤ, m - c = z ∧ |z| ≤ 2 ^ 53) :
    savingsTerm p = JSNumber.fin (savingsExact p) ∧ ∃ n : ℕ, savingsExact p = n := by
  rw [savingsTerm_eq]
  unfold savingsAmount savingsExact
  cases hm : p.maxPrice <;> cases hc : p.currentPrice <;>
    simp only [PriceField.toNumber, JSNumber.sub, JSNumber.max0]
  case undefined.undefined => exact ⟨trivial, 0, by simp⟩
  case undefined.null => exact ⟨trivial, 0, by simp⟩
  case undefined.num => exact ⟨trivial, 0, by simp⟩
  case null.undefined => exact ⟨trivial, 0, by simp⟩
  case num.undefined => exact ⟨trivial, 0, by simp⟩
  case null.null =>
    obtain ⟨z, hz, hzb⟩ := h 0 0 (by simp [hm, PriceField.toNumber]) (by simp [hc, PriceField.toNumber])
    exact max0_round64_exact 0 0 z hz hzb
  case null.num c =>
    obtain ⟨z, hz, hzb⟩ := h 0 c (by simp [hm, PriceField.toNumber]) (by simp [hc, PriceField.toNumber])
    exact max0_round64_exact 0 c z hz hzb
  case num.null m =>
    obtain ⟨z, hz, hzb⟩ := h m 0 (by simp [hm, PriceField.toNumber]) (by simp [hc, PriceField.toNumber])
    exact max0_round64_exact m 0 z hz hzb
  case num.num m c =>
    obtain ⟨z, hz, hzb⟩ := h m c (by simp [hm, PriceField.toNumber]) (by simp [hc, PriceField.toNumber])
    exact max0_round64_exact m c z hz hzb

theorem foldl_savings_exact (ps : List Product)
    (h : ∀ p ∈ ps, ∀ m c : ℚ, p.maxPrice.toNumber = JSNumber.fin m →
      p.currentPrice.toNumber = JSNumber.fin c → ∃ z : ℤ, m - c = z ∧ |z| ≤ 2 ^ 53) :
    ∀ a : ℕ, (a : ℚ) + (ps.map savingsExact).sum ≤ 2 ^ 53 →
      ps.foldl (fun acc p => JSNumber.add acc (savingsTerm p)) (JSNumber.fin a) =
        JSNumber.fin (a + (ps.map savingsExact).sum) := by
  induction ps with
  | nil =>
    intro a _
    simp
  | cons p ps ih =>
    intro a ha
    obtain ⟨hterm, n, hn⟩ := savingsTerm_exact p (h p (List.mem_cons_self _ _))
    have hrest : 0 ≤ (ps.map savingsExact).sum := by
      apply List.sum_nonneg
      intro x hx
      rcases List.mem_map.mp hx with ⟨q, _, rfl⟩
      exact savingsExact_nonneg q
    simp only [List.map_cons, List.sum_cons] at ha
    have hbound : ((a + n : ℕ) : ℚ) ≤ 2 ^ 53 := by
      push_cast
      rw [← hn]
      linarith
    have hstep : JSNumber.add (JSNumber.fin a) (savingsTerm p) = JSNumber.fin ((a + n : ℕ) : ℚ) := by
      rw [hterm, hn]
      simp only [JSNumber.add]
      have hz : ((a : ℚ) + (n : ℚ)) = (((a + n : ℕ) : ℤ) : ℚ) := by push_cast; rfl
      rw [hz, round64_intCast]
      · norm_cast
      · have : ((a + n : ℕ) : ℤ) ≤ 2 ^ 53 := by exact_mod_cast hbound
        rw [abs_of_nonneg (by positivity)]
        exact this
    rw [List.foldl_cons, hstep, ih (fun q hq => h q (List.mem_cons_of_mem _ hq)) (a + n)]
    · simp only [List.map_cons, List.sum_cons]
      push_cast
      rw [hn]
      congr 1
      ring
    · push_cast
      rw [← hn]
      linarith

theorem round64_natLit (n : ℕ) (h : n ≤ 2 ^ 53) : JSNumber.round64 (n : ℚ) = JSNumber.fin n := by
  have hz := round64_intCast (n : ℤ) (by
    rw [abs_of_nonneg (by positivity)]
    exact_mod_cast h)
  simpa using hz

theorem round64_five : JSNumber.round64 5 = JSNumber.fin 5 := by
  have h := round64_natLit 5 (by norm_num)
  simpa using h

theorem round64_one : JSNumber.round64 1 = JSNumber.fin 1 := by
  have h := round64_natLit 1 (by norm_num)
  simpa using h

theorem round64_two_pow_53 :
    JSNumber.round64 9007199254740992 = JSNumber.fin 9007199254740992 := by
  have h := round64_natLit (2 ^ 53) (le_refl _)
  have e : (((2 ^ 53 : ℕ) : ℚ)) = 9007199254740992 := by norm_num
  rw [e] at h
  exact h

theorem round64_two_pow_53_succ :
    JSNumber.round64 9007199254740993 = JSNumber.fin 9007199254740992 := by
  have h := round64_tie
  have e1 : ((2 : ℚ) ^ 53 + 1) = 9007199254740993 := by norm_num
  have e2 : ((2 : ℚ) ^ 53) = 9007199254740992 := by norm_num
  rw [e1, e2] at h
  exact h

theorem savingsTerm_refund : savingsTerm Example.refund = JSNumber.fin 5 := by
  have hsub : JSNumber.sub Example.refund.maxPrice.toNumber Example.refund.currentPrice.toNumber
      = JSNumber.fin 5 := by
    show JSNumber.round64 (0 - (-5)) = JSNumber.fin 5
    have e : ((0 : ℚ) - (-5)) = 5 := by norm_num
    rw [e, round64_five]
  unfold savingsTerm
  rw [hsub]
  simp [JSNumber.gt, JSNumber.lt]

theorem savingsTerm_jet : savingsTerm Example.jet = JSNumber.fin 9007199254740992 := by
  have hsub : JSNumber.sub Example.jet.maxPrice.toNumber Example.jet.currentPrice.toNumber
      = JSNumber.fin 9007199254740992 := by
    show JSNumber.round64 (9007199254740992 - 0) = JSNumber.fin 9007199254740992
    rw [sub_zero, round64_two_pow_53]
  unfold savingsTerm
  rw [hsub]
  simp [JSNumber.gt, JSNumber.lt]

theorem savingsTerm_sweet : savingsTerm Example.sweet = JSNumber.fin 1 := by
  have hsub : JSNumber.sub Example.sweet.maxPrice.toNumber Example.sweet.currentPrice.toNumber
      = JSNumber.fin 1 := by
    show JSNumber.round64 (1 - 0) = JSNumber.fin 1
    rw [sub_zero, round64_one]
  unfold savingsTerm
  rw [hsub]
  simp [JSNumber.gt, JSNumber.lt]

theorem savings_single (s : AppState) (p : Product) (h : s.products = [p]) :
    (stats s).savings = JSNumber.add (JSNumber.fin 0) (savingsTerm p) := by
  simp [stats, h]

theorem savings_pair (s : AppState) (p q : Product) (h : s.products = [p, q]) :
    (stats s).savings =
      JSNumber.add (JSNumber.add (JSNumber.fin 0) (savingsTerm p)) (savingsTerm q) := by
  simp [stats, h]

theorem add_zero_five : JSNumber.add (JSNumber.fin 0) (JSNumber.fin 5) = JSNumber.fin 5 := by
  simp only [JSNumber.add]
  rw [zero_add, round64_five]

theorem add_zero_two_pow_53 :
    JSNumber.add (JSNumber.fin 0) (JSNumber.fin 9007199254740992) =
      JSNumber.fin 9007199254740992 := by
  simp only [JSNumber.add]
  rw [zero_add, round64_two_pow_53]

theorem add_two_pow_53_one :
    JSNumber.add (JSNumber.fin 9007199254740992) (JSNumber.fin 1) =
      JSNumber.fin 9007199254740992 := by
  simp only [JSNumber.add]
  have e : ((9007199254740992 : ℚ) + 1) = 9007199254740993 := by norm_num
  rw [e, round64_two_pow_53_succ]

theorem savingsExact_jet : savingsExact Example.jet = 9007199254740992 := by
  show max ((9007199254740992 : ℚ) - 0) 0 = 9007199254740992
  norm_num

theorem savingsExact_sweet : savingsExact Example.sweet = 1 := by
  show max ((1 : ℚ) - 0) 0 = 1
  norm_num

/-- C2 as stated fails where the maximum price is missing as `null` and the current price is
negative: the product contributes 5, not 0. And the sum is the one of JavaScript numbers, not
the exact one: a product with the difference `2 ^ 53` and one with the difference 1 give the
savings `2 ^ 53`, while the exact sum of the two amounts is `2 ^ 53 + 1`. -/
theorem C2_savings_counterexample :
    Example.refund.maxPrice = PriceField.null ∧
    savingsTerm Example.refund = JSNumber.fin 5 ∧
    (stats { Example.dashboard with products := [Example.refund] }).savings = JSNumber.fin 5 ∧
    (stats { Example.dashboard with products := [Example.jet, Example.sweet] }).savings =
      JSNumber.fin 9007199254740992 ∧
    ([Example.jet, Example.sweet].map savingsExact).sum = 9007199254740993 := by
  refine ⟨rfl, savingsTerm_refund, ?_, ?_, ?_⟩
  · rw [savings_single _ Example.refund rfl, savingsTerm_refund, add_zero_five]
  · rw [savings_pair _ Example.jet Example.sweet rfl, savingsTerm_jet, savingsTerm_sweet,
      add_zero_two_pow_53, add_two_pow_53_one]
  · rw [List.map_cons, List.map_cons, List.map_nil, List.sum_cons, List.sum_cons, List.sum_nil,
      savingsExact_jet, savingsExact_sweet]
    norm_num

/-- C2, amended: for every product list, `stats.savings` is the sum, added in list order
with the JavaScript `+`, over all products of `max(maxPrice - currentPrice, 0)`, the
difference being the JavaScript one, in which a `null` price counts as 0; it is the exact sum
when every price difference is a whole number of magnitude at most `2 ^ 53` and the exact sum
is at most `2 ^ 53`. A product whose current price is at or above its maximum price, or whose
`maxPrice` is absent, or whose `maxPrice` is `null` while its current price is not negative,
contributes 0. The savings are never negative (a finite number from 0 on, or `Infinity`, and
never `NaN`) and are 0 for the empty list. -/
theorem C2_savings_spec (s : AppState) :
    (stats s).savings = JSNumber.sum (s.products.map savingsAmount) ∧
    (∀ p : Product, savingsTerm p =
      JSNumber.max0 (JSNumber.sub p.maxPrice.toNumber p.currentPrice.toNumber)) ∧
    (∀ p : Product, ∀ m c : ℚ, p.maxPrice.toNumber = JSNumber.fin m →
      p.currentPrice.toNumber = JSNumber.fin c → m ≤ c → savingsTerm p = JSNumber.fin 0) ∧
    (∀ p : Product, p.maxPrice = PriceField.undefined → savingsTerm p = JSNumber.fin 0) ∧
    (∀ p : Product, p.maxPrice = PriceField.null →
      (∀ c : ℚ, p.currentPrice = PriceField.num c → 0 ≤ c) → savingsTerm p = JSNumber.fin 0) ∧
    (stats s).savings.NonNeg ∧
    (s.products = [] → (stats s).savings = JSNumber.fin 0) ∧
    ((∀ p ∈ s.products, ∀ m c : ℚ, p.maxPrice.toNumber = JSNumber.fin m →
        p.currentPrice.toNumber = JSNumber.fin c → ∃ z : ℤ, m - c = z ∧ |z| ≤ 2 ^ 53) →
      (s.products.map savingsExact).sum ≤ 2 ^ 53 →
      (stats s).savings = JSNumber.fin ((s.products.map savingsExact).sum)) := by
  have hle : ∀ p : Product, ∀ m c : ℚ, p.maxPrice.toNumber = JSNumber.fin m →
      p.currentPrice.toNumber = JSNumber.fin c → m ≤ c → savingsTerm p = JSNumber.fin 0 := by
    intro p m c hm hc hmc
    unfold savingsTerm
    rw [hm, hc]
    simp only [JSNumber.sub]
    rw [round64_not_pos (m - c) (by linarith)]
    simp
  refine ⟨savings_eq_sum s, fun p => savingsTerm_eq p, hle, ?_, ?_, ?_, ?_, ?_⟩
  · intro p hm
    cases hc : p.currentPrice <;>
      simp [savingsTerm, hm, hc, PriceField.toNumber, JSNumber.sub, JSNumber.gt, JSNumber.lt]
  · intro p hm hc
    cases hcp : p.currentPrice with
    | undefined =>
      simp [savingsTerm, hm, hcp, PriceField.toNumber, JSNumber.sub, JSNumber.gt, JSNumber.lt]
    | null =>
      have h1 : p.maxPrice.toNumber = JSNumber.fin 0 := by simp [hm, PriceField.toNumber]
      have h2 : p.currentPrice.toNumber = JSNumber.fin 0 := by simp [hcp, PriceField.toNumber]
      exact hle p 0 0 h1 h2 (le_refl _)
    | num c =>
      have h1 : p.maxPrice.toNumber = JSNumber.fin 0 := by simp [hm, PriceField.toNumber]
      have h2 : p.currentPrice.toNumber = JSNumber.fin c := by simp [hcp, PriceField.toNumber]
      exact hle p 0 c h1 h2 (hc c hcp)
  · rw [savings_eq_sum]
    apply foldl_add_nonneg
    · intro x hx
      rcases List.mem_map.mp hx with ⟨p, _, rfl⟩
      exact max0_nonneg _
    · exact le_refl _
  · intro h
    simp [stats, h]
  · intro hwhole hsum
    have := foldl_savings_exact s.products hwhole 0 (by simpa using hsum)
    simpa [stats] using this

/-- C2 amended, at an instance: the phone was seen at 620 and costs 500, the lamp has no
prices; all differences are whole numbers, and the savings are exactly 120. -/
theorem C2_savings_spec_witness : (stats Example.dashboard).savings = JSNumber.fin 120 := by
  have h := (C2_savings_spec Example.dashboard).2.2.2.2.2.2.2
    (by
      intro p hp m c hm hc
      simp only [Example.dashboard, List.mem_cons, List.mem_singleton, List.not_mem_nil,
        or_false] at hp
      rcases hp with rfl | rfl
      · simp only [Example.phone, PriceField.toNumber, JSNumber.fin.injEq] at hm hc
        subst hm hc
        exact ⟨120, by norm_num, by norm_num⟩
      · simp only [Example.lamp, PriceField.toNumber, JSNumber.fin.injEq] at hm hc
        subst hm hc
        exact ⟨0, by norm_num, by norm_num⟩)
    (by norm_num [Example.dashboard, Example.phone, Example.lamp, savingsExact,
      PriceField.toNumber])
  rw [h]
  norm_num [Example.dashboard, Example.phone, Example.lamp, savingsExact, PriceField.toNumber]

/-! ## C3: the counters of the statistics row -/

/-- C3: `stats.total` is the length of the full product list, `stats.active` the number of
products with `active` true and `stats.drops` the number with `currentPrice < avgPrice`; the
three are computed over the unfiltered list, so changing the search text or the filter mode
leaves them (and the whole of `stats`) unchanged; `active ≤ total` and `drops ≤ total`. -/
theorem C3_stats_counts (s : AppState) (q mode : String) :
    (stats s).total = s.products.length ∧
    (stats s).active = s.products.countP (fun p => p.active) ∧
    (∃ isDrop : Product → Bool, (∀ p, isDrop p = true ↔ PriceDrop p) ∧
      (stats s).drops = s.products.countP isDrop) ∧
    stats { s with searchQuery := q, filterMode := mode } = stats s ∧
    (stats s).active ≤ (stats s).total ∧
    (stats s).drops ≤ (stats s).total := by
  refine ⟨rfl, ?_, ⟨fun p => PriceField.lt p.currentPrice p.avgPrice, priceDrop_iff, ?_⟩, rfl,
    ?_, ?_⟩
  · simp [stats, List.countP_eq_length_filter]
  · simp [stats, List.countP_eq_length_filter]
  · exact List.length_filter_le _ _
  · exact List.length_filter_le _ _

/-! ## Running a handler -/

section run
variable {α β : Type}

theorem runFrom_pure (a : α) (w : Sys) : (pure a : Handler α).runFrom w = (Except.ok a, w) :=
  rfl

theorem runFrom_bind (m : Handler α) (f : α → Handler β) (w : Sys) :
    (m >>= f).runFrom w =
      match m.runFrom w with
      | (Except.ok a, w1) => (f a).runFrom w1
      | (Except.error e, w1) => (Except.error e, w1) := by
  have key : ∀ r : Except AxiosError α × Sys,
      (match r with
        | (a, s) => (ExceptT.bindCont f a : StateM Sys (Except AxiosError β)) s) =
      (match r with
        | (Except.ok a, w1) => (f a).runFrom w1
        | (Except.error e, w1) => (Except.error e, w1)) := by
    rintro ⟨_ | _, _⟩ <;> rfl
  exact key (m.runFrom w)

theorem runFrom_throw (e : AxiosError) (w : Sys) :
    (throw e : Handler α).runFrom w = (Except.error e, w) :=
  rfl

theorem runFrom_tryCatch (m : Handler α) (h : AxiosError → Handler α) (w : Sys) :
    (tryCatch m h).runFrom w =
      match m.runFrom w with
      | (Except.ok a, w1) => (Except.ok a, w1)
      | (Except.error e, w1) => (h e).runFrom w1 := by
  unfold Handler.runFrom
  simp only [tryCatch, tryCatchThe, MonadExceptOf.tryCatch, ExceptT.tryCatch, ExceptT.run,
    ExceptT.mk, StateT.run, bind, StateT.bind]
  rcases m w with ⟨_ | _, _⟩ <;> rfl

theorem runFrom_tryFinally (m : Handler α) (fin : Handler Unit) (w : Sys) :
    (tryFinally m fin).runFrom w =
      match m.runFrom w with
      | (Except.ok a, w1) =>
        (match fin.runFrom w1 with
          | (Except.ok _, w2) => (Except.ok a, w2)
          | (Except.error e, w2) => (Except.error e, w2))
      | (Except.error e, w1) =>
        (match fin.runFrom w1 with
          | (Except.ok _, w2) => (Except.error e, w2)
          | (Except.error e2, w2) => (Except.error e2, w2)) := by
  unfold Handler.runFrom
  simp only [tryFinally, MonadFinally.tryFinally', ExceptT.run, ExceptT.mk, StateT.run, bind,
    StateT.bind, Functor.map, StateT.map, ExceptT.map, pure, StateT.pure]
  rcases m w with ⟨_ | _, w1⟩ <;> simp <;> rcases fin w1 with ⟨_ | _, w2⟩ <;> rfl

theorem runFrom_get (w : Sys) : (get : Handler Sys).runFrom w = (Except.ok w, w) :=
  rfl

theorem runFrom_modify (f : Sys → Sys) (w : Sys) :
    (modify f : Handler Unit).runFrom w = (Except.ok (), f w) :=
  rfl

theorem runFrom_ite (c : Prop) [Decidable c] (m1 m2 : Handler α) (w : Sys) :
    (if c then m1 else m2).runFrom w = if c then m1.runFrom w else m2.runFrom w := by
  split <;> rfl

end run

theorem requestsOf_append (l1 l2 : List Event) :
    requestsOf (l1 ++ l2) = requestsOf l1 ++ requestsOf l2 := by
  simp [requestsOf, List.filterMap_append]

theorem fetchProducts_run (srv : Server) (w : Sys) :
    (fetchProducts srv).runFrom w = (Except.ok (),
      match srv.getAllProducts with
      | Except.ok ps =>
        ({ w with app := { w.app with products := ps, loading := false },
                  events := w.events ++ [Event.request productService.getAllProducts] } : Sys)
      | Except.error _ =>
        ({ w with app := { w.app with loading := false },
                  events := w.events ++ [Event.request productService.getAllProducts,
                    Event.consoleError "Error fetching products:"] } : Sys)) := by
  simp only [fetchProducts, await, emit, consoleError, setProducts, setLoading, runFrom_tryCatch,
    runFrom_bind, runFrom_modify]
  cases srv.getAllProducts <;> simp [runFrom_pure, runFrom_throw, runFrom_bind, runFrom_modify]

/-! ## C9: fetching the product list -/

/-- C9: one call of `fetchProducts` issues exactly one request, `GET /api/products`, and no
other; on success the product list becomes the response data, on failure it is left
unchanged; in both cases `loading` is false afterwards and the call ends without an error. -/
theorem C9_fetchProducts_once (srv : Server) (w : Sys) :
    ((fetchProducts srv).runFrom w).1 = Except.ok () ∧
    requestsOf ((fetchProducts srv).runFrom w).2.events =
      requestsOf w.events ++ [productService.getAllProducts] ∧
    productService.getAllProducts =
      { method := Method.GET, url := "/api/products", body := Body.none } ∧
    (∀ ps, srv.getAllProducts = Except.ok ps →
      ((fetchProducts srv).runFrom w).2.app.products = ps) ∧
    (∀ e, srv.getAllProducts = Except.error e →
      ((fetchProducts srv).runFrom w).2.app.products = w.app.products) ∧
    ((fetchProducts srv).runFrom w).2.app.loading = false := by
  rw [fetchProducts_run]
  refine ⟨rfl, ?_, by decide, ?_, ?_, ?_⟩
  · cases srv.getAllProducts <;> simp [requestsOf_append, requestsOf]
  · intro ps h
    simp [h]
  · intro e h
    simp [h]
  · cases srv.getAllProducts <;> rfl

/-- C9, at an instance: the example server answers with the phone alone, and the list of the
page becomes that answer. -/
theorem C9_fetchProducts_once_witness :
    ((fetchProducts Example.server).runFrom Example.page).2.app.products = [Example.phone] :=
  (C9_fetchProducts_once Example.server Example.page).2.2.2.1 [Example.phone] rfl

/-! ## C5: deleting a product -/

theorem handleDelete_run (srv : Server) (id : ProductId) (w : Sys) :
    (handleDelete srv id).runFrom w = (Except.ok (),
      if srv.confirm = true then
        match srv.deleteProduct id with
        | Except.ok _ =>
          (let w1 := ((fetchProducts srv).runFrom
              { w with events := w.events ++ [Event.request (productService.deleteProduct id)] }).2
           if isSelected w.app.selectedProduct id = true then
             { w1 with app := { w1.app with selectedProduct := none } }
           else w1)
        | Except.error _ =>
          ({ w with events := w.events ++ [Event.request (productService.deleteProduct id),
              Event.consoleError "Error deleting product:"] } : Sys)
      else w) := by
  simp only [handleDelete, await, emit, consoleError, setSelectedProduct, runFrom_tryCatch,
    runFrom_bind, runFrom_modify, runFrom_get, runFrom_ite, fetchProducts_run]
  by_cases hc : srv.confirm = true
  · simp only [hc, if_true]
    cases srv.deleteProduct id
    · simp [runFrom_pure, runFrom_throw, runFrom_bind, runFrom_modify]
    · simp only [runFrom_pure, runFrom_throw, runFrom_bind, runFrom_modify]
      by_cases hs : isSelected w.app.selectedProduct id = true
      · simp [hs, runFrom_pure, runFrom_modify]
      · simp [hs, runFrom_pure, runFrom_modify]
  · simp [hc, runFrom_pure]

theorem isSelected_iff (sel : Option Product) (id : ProductId) :
    isSelected sel id = true ↔ ∃ p, sel = some p ∧ p.id = id := by
  cases sel <;> simp [isSelected]

/-- C5: `handleDelete(id)`. If the user declines the confirmation nothing happens: no request
is issued and the whole state, product list and selection included, is unchanged. If the user
confirms and the delete request succeeds, the requests issued are the delete request followed
by the refetch `GET /api/products`, and the selection is cleared when a product is selected
and its id equals `id`, and unchanged otherwise. If the delete request fails, it is the only
request issued (no refetch) and the selection and the product list are unchanged. -/
theorem C5_handleDelete_outcomes (srv : Server) (id : ProductId) (w : Sys) :
    (srv.confirm = false → (handleDelete srv id).runFrom w = (Except.ok (), w)) ∧
    (srv.confirm = true → srv.deleteProduct id = Except.ok () →
      requestsOf ((handleDelete srv id).runFrom w).2.events =
        requestsOf w.events ++ [productService.deleteProduct id, productService.getAllProducts] ∧
      ((∃ p, w.app.selectedProduct = some p ∧ p.id = id) →
        ((handleDelete srv id).runFrom w).2.app.selectedProduct = none) ∧
      ((¬ ∃ p, w.app.selectedProduct = some p ∧ p.id = id) →
        ((handleDelete srv id).runFrom w).2.app.selectedProduct = w.app.selectedProduct)) ∧
    (srv.confirm = true → ∀ e, srv.deleteProduct id = Except.error e →
      requestsOf ((handleDelete srv id).runFrom w).2.events =
        requestsOf w.events ++ [productService.deleteProduct id] ∧
      ((handleDelete srv id).runFrom w).2.app.selectedProduct = w.app.selectedProduct ∧
      ((handleDelete srv id).runFrom w).2.app.products = w.app.products) := by
  rw [handleDelete_run, fetchProducts_run]
  refine ⟨?_, ?_, ?_⟩
  · intro hc
    simp [hc]
  · intro hc hd
    simp only [hc, hd, if_true]
    refine ⟨?_, ?_, ?_⟩
    · by_cases hs : isSelected w.app.selectedProduct id = true <;>
        cases srv.getAllProducts <;> simp [hs, requestsOf_append, requestsOf]
    · intro hsel
      have hs := (isSelected_iff _ _).mpr hsel
      simp [hs]
    · intro hsel
      have hs : ¬ isSelected w.app.selectedProduct id = true :=
        fun h => hsel ((isSelected_iff _ _).mp h)
      cases srv.getAllProducts <;> simp [hs]
  · intro hc e hd
    simp [hc, hd, requestsOf_append, requestsOf]

/-- C5, at an instance: the phone is selected and the user confirms its deletion on the
example server; the selection is cleared. -/
theorem C5_handleDelete_outcomes_witness :
    ((handleDelete Example.server (ProductId.num 1)).runFrom Example.page).2.app.selectedProduct
      = none :=
  ((C5_handleDelete_outcomes Example.server (ProductId.num 1) Example.page).2.1 rfl rfl).2.1
    ⟨Example.phone, rfl, rfl⟩

/-! ## C6: scraping a product by hand -/

theorem handleManualScrape_run (srv : Server) (id : ProductId) (w : Sys) :
    (handleManualScrape srv id).runFrom w = (Except.ok (),
      match srv.scrapeProduct id with
      | Except.ok _ =>
        (let w1 := ((fetchProducts srv).runFrom
            { w with events := w.events ++ [Event.request (productService.scrapeProduct id)] }).2
         if isSelected w.app.selectedProduct id = true then
           match srv.getProduct id with
           | Except.ok updated =>
             ({ w1 with app := { w1.app with selectedProduct := some updated },
                        events := w1.events ++ [Event.request (productService.getProduct id)] }
               : Sys)
           | Except.error _ =>
             ({ w1 with events := w1.events ++ [Event.request (productService.getProduct id),
                  Event.consoleError "Error scraping product:"] } : Sys)
         else w1)
      | Except.error _ =>
        ({ w with events := w.events ++ [Event.request (productService.scrapeProduct id),
            Event.consoleError "Error scraping product:"] } : Sys)) := by
  simp only [handleManualScrape, await, emit, consoleError, setSelectedProduct, runFrom_tryCatch,
    runFrom_bind, runFrom_modify, runFrom_get, runFrom_ite, fetchProducts_run]
  cases srv.scrapeProduct id
  · simp [runFrom_pure, runFrom_throw, runFrom_bind, runFrom_modify]
  · simp only [runFrom_pure, runFrom_throw, runFrom_bind, runFrom_modify]
    by_cases hs : isSelected w.app.selectedProduct id = true
    · cases srv.getProduct id <;>
        simp [hs, runFrom_pure, runFrom_throw, runFrom_bind, runFrom_modify]
    · simp [hs, runFrom_pure, runFrom_modify]

/-- C6: `handleManualScrape(id)` never ends with an error. When the scrape request succeeds,
the product list is refetched (`GET /api/products` follows the scrape request); if a product
is selected and its id equals `id`, `getProduct(id)` is requested next and the selection is
replaced by the data it returns (and left unchanged if that request fails); otherwise no
further request is issued and the selection is unchanged. When the scrape request fails, it is the only request issued (no refetch, no
`getProduct`) and the selection is unchanged. -/
theorem C6_handleManualScrape_outcomes (srv : Server) (id : ProductId) (w : Sys) :
    ((handleManualScrape srv id).runFrom w).1 = Except.ok () ∧
    (srv.scrapeProduct id = Except.ok () →
      ((∃ p, w.app.selectedProduct = some p ∧ p.id = id) →
        requestsOf ((handleManualScrape srv id).runFrom w).2.events =
          requestsOf w.events ++ [productService.scrapeProduct id,
            productService.getAllProducts, productService.getProduct id] ∧
        (∀ updated, srv.getProduct id = Except.ok updated →
          ((handleManualScrape srv id).runFrom w).2.app.selectedProduct = some updated) ∧
        (∀ e, srv.getProduct id = Except.error e →
          ((handleManualScrape srv id).runFrom w).2.app.selectedProduct =
            w.app.selectedProduct)) ∧
      ((¬ ∃ p, w.app.selectedProduct = some p ∧ p.id = id) →
        requestsOf ((handleManualScrape srv id).runFrom w).2.events =
          requestsOf w.events ++ [productService.scrapeProduct id,
            productService.getAllProducts] ∧
        ((handleManualScrape srv id).runFrom w).2.app.selectedProduct =
          w.app.selectedProduct)) ∧
    (∀ e, srv.scrapeProduct id = Except.error e →
      requestsOf ((handleManualScrape srv id).runFrom w).2.events =
        requestsOf w.events ++ [productService.scrapeProduct id] ∧
      ((handleManualScrape srv id).runFrom w).2.app.selectedProduct = w.app.selectedProduct) := by
  rw [handleManualScrape_run, fetchProducts_run]
  refine ⟨rfl, ?_, ?_⟩
  · intro hsc
    simp only [hsc]
    refine ⟨?_, ?_⟩
    · intro hsel
      have hs := (isSelected_iff _ _).mpr hsel
      refine ⟨?_, ?_, ?_⟩
      · cases srv.getAllProducts <;> cases srv.getProduct id <;>
          simp [hs, requestsOf_append, requestsOf]
      · intro updated hg
        simp [hs, hg]
      · intro e hg
        cases srv.getAllProducts <;> simp [hs, hg]
    · intro hsel
      have hs : ¬ isSelected w.app.selectedProduct id = true :=
        fun h => hsel ((isSelected_iff _ _).mp h)
      cases srv.getAllProducts <;> simp [hs, requestsOf_append, requestsOf]
  · intro e hsc
    simp [hsc, requestsOf_append, requestsOf]

/-- C6, at an instance: the phone is selected and scraped on the example server; the
selection becomes the product returned by `getProduct`, with the new price 480. -/
theorem C6_handleManualScrape_outcomes_witness :
    ((handleManualScrape Example.server (ProductId.num 1)).runFrom
        Example.page).2.app.selectedProduct
      = some { Example.phone with currentPrice := PriceField.num 480 } :=
  (((C6_handleManualScrape_outcomes Example.server (ProductId.num 1) Example.page).2.1 rfl).1
    ⟨Example.phone, rfl, rfl⟩).2.1 _ rfl

/-! ## C7 and C8: submitting the add-product form -/

theorem parseFloat_zero : parseFloat "0" = JSNumber.fin 0 := by
  have h : strDecimalLiteral "0" = some (false, StrLiteral.decimal 0 0 0) := by decide
  simp [parseFloat, h, StrLiteral.value]

theorem App.handleSubmit_run (srv : Server) (w : Sys) :
    (App.handleSubmit srv).runFrom w = (Except.ok (),
      match srv.addProduct (AddProductModal.submitData w.modal) with
      | Except.ok _ =>
        (let w1 := ((fetchProducts srv).runFrom
            { w with modal := { w.modal with error := "", loading := true, step := 2 },
                     events := w.events ++
                       [Event.request (productService.addProduct
                          (AddProductModal.submitData w.modal)), Event.onAdded] }).2
         { w1 with modal := { w1.modal with loading := false } })
      | Except.error err =>
        ({ w with modal := { w.modal with error := AddProductModal.errorText err,
                                          loading := false },
                  events := w.events ++
                    [Event.request (productService.addProduct
                       (AddProductModal.submitData w.modal)),
                     Event.consoleError "Error adding product:"] } : Sys)) := by
  simp only [App.handleSubmit, AddProductModal.handleSubmit, await, emit, consoleError,
    AddProductModal.setError, AddProductModal.setLoading, AddProductModal.setStep,
    runFrom_tryFinally, runFrom_tryCatch, runFrom_bind, runFrom_modify, runFrom_get,
    fetchProducts_run]
  cases srv.addProduct (AddProductModal.submitData w.modal) <;>
    simp [runFrom_pure, runFrom_throw, runFrom_bind, runFrom_modify]

/-- C7: for every form state, the submission issues `POST /api/products` once, with the body
`{url, targetPrice, alertEmail, scrapeFrequency}` built from the form: `url`, the email and
the frequency are the fields as they are, and `targetPrice` is `null` if and only if the
target-price input is the empty string and is `parseFloat` of the input otherwise, so the
input `"0"` is sent as the number 0; the frequency of a fresh form is `DAILY`. -/
theorem C7_submit_payload (srv : Server) (w : Sys) :
    (∃ rest, ((App.handleSubmit srv).runFrom w).2.events =
      w.events ++
        Event.request (productService.addProduct (AddProductModal.submitData w.modal)) :: rest ∧
      ∀ d, Event.request (productService.addProduct d) ∉ rest) ∧
    (∀ d, productService.addProduct d =
      { method := Method.POST, url := "/api/products", body := Body.addProduct d }) ∧
    (AddProductModal.submitData w.modal).url = w.modal.url ∧
    (AddProductModal.submitData w.modal).alertEmail = w.modal.email ∧
    (AddProductModal.submitData w.modal).scrapeFrequency = w.modal.frequency ∧
    ((AddProductModal.submitData w.modal).targetPrice = JSVal.null ↔ w.modal.targetPrice = "") ∧
    (w.modal.targetPrice ≠ "" →
      (AddProductModal.submitData w.modal).targetPrice =
        JSVal.num (parseFloat w.modal.targetPrice)) ∧
    (w.modal.targetPrice = "0" →
      (AddProductModal.submitData w.modal).targetPrice = JSVal.num (JSNumber.fin 0)) ∧
    ModalState.init.frequency = "DAILY" := by
  have hpost : ∀ d, productService.addProduct d =
      { method := Method.POST, url := "/api/products", body := Body.addProduct d } := by
    intro d
    simp only [productService.addProduct, api.post]
    congr 1
  have hget : ∀ d, productService.addProduct d ≠ productService.getAllProducts := by
    intro d h
    rw [hpost] at h
    have hm : Method.POST = Method.GET := congrArg HttpRequest.method h
    exact absurd hm (by decide)
  refine ⟨?_, hpost, rfl, rfl, rfl, ?_, ?_, ?_, rfl⟩
  · rw [App.handleSubmit_run, fetchProducts_run]
    cases srv.addProduct (AddProductModal.submitData w.modal)
    · refine ⟨[Event.consoleError "Error adding product:"], ?_, ?_⟩
      · simp
      · simp
    · cases srv.getAllProducts
      · refine ⟨[Event.onAdded, Event.request productService.getAllProducts,
          Event.consoleError "Error fetching products:"], ?_, ?_⟩
        · simp
        · intro d
          simp [hget d]
      · refine ⟨[Event.onAdded, Event.request productService.getAllProducts], ?_, ?_⟩
        · simp
        · intro d
          simp [hget d]
  · by_cases h : w.modal.targetPrice = "" <;> simp [AddProductModal.submitData, h]
  · intro h
    simp [AddProductModal.submitData, h]
  · intro h
    simp [AddProductModal.submitData, h, parseFloat_zero]

/-- C7, at an instance: the form with the target price `0` sends the number 0. -/
theorem C7_submit_payload_witness :
    (AddProductModal.submitData Example.formPage.modal).targetPrice =
      JSVal.num (JSNumber.fin 0) :=
  (C7_submit_payload Example.server Example.formPage).2.2.2.2.2.2.2.1 rfl

/-- C8 as stated fails when the message of the rejection is present but empty: the example
failing server rejects the submission with the message `""`, and the error shown is the
fixed text, not that message. -/
theorem C8_empty_message_counterexample :
    Example.failingServer.addProduct (AddProductModal.submitData Example.formPage.modal) =
      Except.error { message := some "" } ∧
    ((App.handleSubmit Example.failingServer).runFrom Example.formPage).2.modal.error =
      "Failed to add product. Please check the URL and try again." ∧
    ((App.handleSubmit Example.failingServer).runFrom Example.formPage).2.modal.error ≠ "" := by
  rw [App.handleSubmit_run]
  refine ⟨rfl, ?_, ?_⟩ <;> decide

/-- C8, amended: if the request succeeds, `step` becomes 2, `onAdded` is called exactly once
and `error` is empty; if it fails, `step` is unchanged (so it stays 1 on the input form),
`onAdded` is not called, and `error` becomes the message of the response when one is present
and non-empty, and the fixed text `Failed to add product. Please check the URL and try
again.` otherwise; in both cases `loading` is false at the end and the handler ends without
an error. -/
theorem C8_submit_outcome (srv : Server) (w : Sys) :
    ((App.handleSubmit srv).runFrom w).1 = Except.ok () ∧
    ((App.handleSubmit srv).runFrom w).2.modal.loading = false ∧
    (srv.addProduct (AddProductModal.submitData w.modal) = Except.ok () →
      ((App.handleSubmit srv).runFrom w).2.modal.step = 2 ∧
      ((App.handleSubmit srv).runFrom w).2.events.count Event.onAdded =
        w.events.count Event.onAdded + 1 ∧
      ((App.handleSubmit srv).runFrom w).2.modal.error = "") ∧
    (∀ err, srv.addProduct (AddProductModal.submitData w.modal) = Except.error err →
      ((App.handleSubmit srv).runFrom w).2.modal.step = w.modal.step ∧
      (w.modal.step = 1 → ((App.handleSubmit srv).runFrom w).2.modal.step = 1) ∧
      ((App.handleSubmit srv).runFrom w).2.events.count Event.onAdded =
        w.events.count Event.onAdded ∧
      (∀ msg, err.message = some msg → msg ≠ "" →
        ((App.handleSubmit srv).runFrom w).2.modal.error = msg) ∧
      (err.message = none ∨ err.message = some "" →
        ((App.handleSubmit srv).runFrom w).2.modal.error =
          "Failed to add product. Please check the URL and try again.")) := by
  rw [App.handleSubmit_run, fetchProducts_run]
  refine ⟨rfl, ?_, ?_, ?_⟩
  · cases srv.addProduct (AddProductModal.submitData w.modal)
    · rfl
    · cases srv.getAllProducts <;> rfl
  · intro h
    simp only [h]
    cases srv.getAllProducts <;> simp [List.count_append]
  · intro err h
    rw [h]
    refine ⟨rfl, fun h1 => h1, ?_, ?_, ?_⟩
    · simp [List.count_append]
    · intro msg hm hne
      simp [AddProductModal.errorText, hm, hne]
    · rintro (hm | hm) <;> simp [AddProductModal.errorText, hm, AddProductModal.fallbackError]

/-- C8 amended, at an instance: a rejection with the message `Unsupported site` shows that
message. -/
theorem C8_submit_outcome_witness :
    ((App.handleSubmit
        { Example.failingServer with
          addProduct := fun _ => Except.error { message := some "Unsupported site" } }).runFrom
      Example.formPage).2.modal.error = "Unsupported site" :=
  ((C8_submit_outcome
      { Example.failingServer with
        addProduct := fun _ => Except.error { message := some "Unsupported site" } }
      Example.formPage).2.2.2 { message := some "Unsupported site" } rfl).2.2.2.1
    "Unsupported site" rfl (by decide)

/-! ## C4: the data behind the price chart -/

/-- For a product without recorded history the card charts what the specification asks for,
the synthetic series as a fallback. -/
theorem card_chart_fallback (history : PriceHistory) (p : Product) (clock : Nat → Int)
    (h : history p.id = []) : cardChartData p clock = chartDataSpec history p clock := by
  simp [cardChartData, chartDataSpec, h]

/-- The chart on the card of the phone, with the clock at 1700000000000: the five synthetic
prices 525, 550, 540, 475 and 500, one day apart. -/
theorem card_chart_phone :
    cardChartData Example.phone Example.clock =
      [{ price := JSVal.num (JSNumber.fin 525), scrapedAt := 1700000000000 - 86400000 * 4 },
        { price := JSVal.num (JSNumber.fin 550), scrapedAt := 1700000000000 - 86400000 * 3 },
        { price := JSVal.num (JSNumber.fin 540), scrapedAt := 1700000000000 - 86400000 * 2 },
        { price := JSVal.num (JSNumber.fin 475), scrapedAt := 1700000000000 - 86400000 * 1 },
        { price := JSVal.num (JSNumber.fin 500), scrapedAt := 1700000000000 }] := by
  simp only [cardChartData, mockChartData, scalePrice, Example.phone, Example.clock,
    PriceField.toNumber, PriceField.toVal, JSNumber.mul]
  norm_num

/-- C4 fails on the code: the server holds a real price history of the phone, two
observations at 620 and 500, so the chart of the phone is to show that history; the card is
given the five synthetic prices 525, 550, 540, 475 and 500 instead. -/
theorem C4_card_charts_mock_despite_history :
    Example.priceHistory Example.phone.id =
      [{ price := JSVal.num (JSNumber.fin 620), scrapedAt := 1699000000000 },
        { price := JSVal.num (JSNumber.fin 500), scrapedAt := 1699900000000 }] ∧
    chartDataSpec Example.priceHistory Example.phone Example.clock =
      Example.priceHistory Example.phone.id ∧
    (cardChartData Example.phone Example.clock).map (fun pt => pt.price) =
      [JSVal.num (JSNumber.fin 525), JSVal.num (JSNumber.fin 550), JSVal.num (JSNumber.fin 540),
        JSVal.num (JSNumber.fin 475), JSVal.num (JSNumber.fin 500)] ∧
    cardChartData Example.phone Example.clock ≠
      chartDataSpec Example.priceHistory Example.phone Example.clock := by
  have hhist : Example.priceHistory Example.phone.id = Example.history := rfl
  have hspec : chartDataSpec Example.priceHistory Example.phone Example.clock =
      Example.priceHistory Example.phone.id := by
    unfold chartDataSpec
    rw [if_neg]
    rw [hhist]
    exact List.cons_ne_nil _ _
  refine ⟨rfl, hspec, ?_, ?_⟩
  · rw [card_chart_phone]
    rfl
  · intro h
    rw [hspec, hhist, card_chart_phone] at h
    have hl := congrArg List.length h
    simp [Example.history] at hl

/-! ## C10: the requests of the service wrappers -/

theorem hexDigit_mem : ∀ n, n < 16 → hexDigit n ∈ "0123456789ABCDEF".data := by
  decide

theorem utf8Bytes_lt (n : Nat) (hn : n < 0x110000) : ∀ b ∈ utf8Bytes n, b < 256 := by
  intro b hb
  unfold utf8Bytes at hb
  split_ifs at hb <;> simp at hb <;> omega

theorem encodeChar_chars (c x : Char) (hx : x ∈ encodeChar c) :
    isUriUnreserved x = true ∨ x = '%' ∨ x ∈ "0123456789ABCDEF".data := by
  unfold encodeChar at hx
  split_ifs at hx with hu
  · simp only [List.mem_singleton] at hx
    exact Or.inl (hx ▸ hu)
  · rcases List.mem_flatMap.mp hx with ⟨b, hb, hxb⟩
    have hc : c.toNat < 0x110000 := by
      have hv := c.valid
      simp only [UInt32.isValidChar, Nat.isValidChar] at hv
      show c.val.toNat < 0x110000
      omega
    have hlt := utf8Bytes_lt c.toNat hc b hb
    simp only [percentByte, List.mem_cons, List.mem_nil_iff, or_false] at hxb
    rcases hxb with h1 | h1 | h1
    · exact Or.inr (Or.inl h1)
    · exact Or.inr (Or.inr (h1 ▸ hexDigit_mem _ (by omega)))
    · exact Or.inr (Or.inr (h1 ▸ hexDigit_mem _ (by omega)))

/-- C10: every wrapper call issues one request, and its full URL (the base `/api` followed
by the path) starts with `/api/products` or `/api/alerts`. `getHistory(id, days)` requests
`GET /api/products/{id}/prices?days={days}` and `getAnalytics(id, days)` requests
`GET /api/products/{id}/analytics?days={days}`, both with `days = 30` when the argument is
omitted. `checkUrl(url)` requests `GET /api/products/check-url?url=` followed by
`encodeURIComponent(url)`, a text made of unreserved characters, `%` and upper-case
hexadecimal digits only. -/
theorem C10_wrapper_requests :
    (∀ c : ServiceCall, "/api/products".data <+: c.request.url.data ∨
      "/api/alerts".data <+: c.request.url.data) ∧
    (∀ (id : ProductId) (days : Int), priceHistoryService.getHistory id (some days) =
      { method := Method.GET, body := Body.none,
        url := "/api/products/" ++ id.toString ++ "/prices?days=" ++ ToString.toString days }) ∧
    (∀ id : ProductId, priceHistoryService.getHistory id none =
      { method := Method.GET, body := Body.none,
        url := "/api/products/" ++ id.toString ++ "/prices?days=30" }) ∧
    (∀ (id : ProductId) (days : Int), priceHistoryService.getAnalytics id (some days) =
      { method := Method.GET, body := Body.none,
        url := "/api/products/" ++ id.toString ++ "/analytics?days=" ++ ToString.toString days }) ∧
    (∀ id : ProductId, priceHistoryService.getAnalytics id none =
      { method := Method.GET, body := Body.none,
        url := "/api/products/" ++ id.toString ++ "/analytics?days=30" }) ∧
    (∀ url : String, productService.checkUrl url =
      { method := Method.GET, body := Body.none,
        url := "/api/products/check-url?url=" ++ encodeURIComponent url }) ∧
    (∀ url : String, ∀ x ∈ (encodeURIComponent url).data,
      isUriUnreserved x = true ∨ x = '%' ∨ x ∈ "0123456789ABCDEF".data) := by
  refine ⟨?_, ?_, ?_, ?_, ?_, ?_, ?_⟩
  · intro c
    cases c
    all_goals simp [ServiceCall.request, productService.getAllProducts,
      productService.getActiveProducts, productService.getProduct, productService.addProduct,
      productService.deleteProduct, productService.updateTargetPrice,
      productService.updateActiveStatus, productService.scrapeProduct,
      productService.getSupportedSites, productService.checkUrl,
      priceHistoryService.getHistory, priceHistoryService.getAllHistory,
      priceHistoryService.getAnalytics, alertService.getAlertsForProduct,
      alertService.getPendingAlerts, api.get, api.post, api.delete, api.patch, baseURL,
      String.data_append]
  · intro id days
    simp [priceHistoryService.getHistory, api.get, baseURL, String.ext_iff, String.data_append]
  · intro id
    simp [priceHistoryService.getHistory, api.get, baseURL, String.ext_iff, String.data_append]
    decide
  · intro id days
    simp [priceHistoryService.getAnalytics, api.get, baseURL, String.ext_iff, String.data_append]
  · intro id
    simp [priceHistoryService.getAnalytics, api.get, baseURL, String.ext_iff, String.data_append]
    decide
  · intro url
    simp [productService.checkUrl, api.get, baseURL, String.ext_iff, String.data_append]
  · intro url x hx
    simp only [encodeURIComponent] at hx
    rcases List.mem_flatMap.mp hx with ⟨c, _, hxc⟩
    exact encodeChar_chars c x hxc

/-! ## C11: one wrapper per endpoint -/

theorem digitChar_isDigit : ∀ k, k < 10 → (Nat.digitChar k).isDigit = true := by
  decide

theorem toDigitsCore_isDigit (fuel : Nat) : ∀ (n : Nat) (ds : List Char),
    (∀ c ∈ ds, c.isDigit = true) → ∀ c ∈ Nat.toDigitsCore 10 fuel n ds, c.isDigit = true := by
  induction fuel with
  | zero =>
    intro n ds h c hc
    exact h c hc
  | succ fuel ih =>
    intro n ds h c hc
    have hd : ∀ x ∈ Nat.digitChar (n % 10) :: ds, x.isDigit = true := by
      intro x hx
      rcases List.mem_cons.mp hx with rfl | hx
      · exact digitChar_isDigit _ (Nat.mod_lt _ (by decide))
      · exact h x hx
    simp only [Nat.toDigitsCore] at hc
    split_ifs at hc
    · exact hd c hc
    · exact ih _ _ hd c hc

theorem toDigitsCore_length (fuel : Nat) : ∀ (n : Nat) (ds : List Char),
    ds.length ≤ (Nat.toDigitsCore 10 fuel n ds).length := by
  induction fuel with
  | zero =>
    intro n ds
    exact le_refl _
  | succ fuel ih =>
    intro n ds
    simp only [Nat.toDigitsCore]
    split_ifs
    · simp
    · exact le_trans (by simp) (ih _ (Nat.digitChar (n % 10) :: ds))

theorem toDigitsCore_succ_length (fuel n : Nat) (ds : List Char) :
    ds.length + 1 ≤ (Nat.toDigitsCore 10 (fuel + 1) n ds).length := by
  simp only [Nat.toDigitsCore]
  split_ifs
  · simp
  · exact le_trans (by simp) (toDigitsCore_length fuel _ (Nat.digitChar (n % 10) :: ds))

theorem natId_digits (n : Nat) :
    (ProductId.num (Int.ofNat n)).toString.data ≠ [] ∧
    ∀ c ∈ (ProductId.num (Int.ofNat n)).toString.data, c.isDigit = true := by
  have hdata : (ProductId.num (Int.ofNat n)).toString.data = Nat.toDigitsCore 10 (n + 1) n [] :=
    rfl
  rw [hdata]
  constructor
  · intro h
    have hl := toDigitsCore_succ_length n n []
    rw [h] at hl
    simp at hl
  · exact toDigitsCore_isDigit _ _ _ (by simp)

theorem routeOf_item (method : Method) (url : String) (ds r : List Char)
    (hurl : url.data = "/api/products/".data ++ (ds ++ r)) (hne : ds ≠ [])
    (hds : ∀ c ∈ ds, c.isDigit = true) (hr : r.takeWhile Char.isDigit = []) :
    routeOf method url = routeOfItem method r := by
  have hdrop : url.data.drop 14 = ds ++ r := by
    rw [hurl]
    rfl
  have htake : (ds ++ r).takeWhile Char.isDigit = ds := by
    rw [List.takeWhile_append_of_pos hds, hr, List.append_nil]
  have hdropw : (ds ++ r).dropWhile Char.isDigit = r := by
    rw [List.dropWhile_append_of_pos hds]
    have h := List.takeWhile_append_dropWhile Char.isDigit r
    rw [hr, List.nil_append] at h
    exact h
  have hpre : "/api/products/".data.isPrefixOf url.data = true := by
    rw [hurl, List.isPrefixOf_iff_prefix]
    exact List.prefix_append _ _
  unfold routeOf
  rw [hdrop, htake, hdropw, if_pos ⟨hpre, hne⟩]

theorem routeOf_request (c : ServiceCall) (h : c.HasNatId) :
    routeOf c.request.method c.request.url = some c.wrapper := by
  cases c with
  | getAllProducts => decide
  | getActiveProducts => decide
  | getSupportedSites => decide
  | getPendingAlerts => decide
  | addProduct data =>
    simp [ServiceCall.request, ServiceCall.wrapper, productService.addProduct, api.post, baseURL,
      routeOf, routeOfFixed]
  | checkUrl url =>
    simp [ServiceCall.request, ServiceCall.wrapper, productService.checkUrl, api.get, baseURL,
      routeOf, routeOfFixed, String.data_append]
  | getAlertsForProduct id =>
    simp [ServiceCall.request, ServiceCall.wrapper, alertService.getAlertsForProduct, api.get,
      baseURL, routeOf, routeOfFixed, String.data_append]
  | getProduct id =>
    obtain ⟨n, rfl⟩ := h id rfl
    obtain ⟨hne, hds⟩ := natId_digits n
    rw [routeOf_item _ _ _ [] _ hne hds rfl]
    · rfl
    · simp [ServiceCall.request, productService.getProduct, api.get, baseURL, String.data_append]
  | deleteProduct id =>
    obtain ⟨n, rfl⟩ := h id rfl
    obtain ⟨hne, hds⟩ := natId_digits n
    rw [routeOf_item _ _ _ [] _ hne hds rfl]
    · rfl
    · simp [ServiceCall.request, productService.deleteProduct, api.delete, baseURL,
        String.data_append]
  | updateTargetPrice id t =>
    obtain ⟨n, rfl⟩ := h id rfl
    obtain ⟨hne, hds⟩ := natId_digits n
    rw [routeOf_item _ _ _ "/target-price".data _ hne hds (by decide)]
    · rfl
    · simp [ServiceCall.request, productService.updateTargetPrice, api.patch, baseURL,
        String.data_append]
  | updateActiveStatus id a =>
    obtain ⟨n, rfl⟩ := h id rfl
    obtain ⟨hne, hds⟩ := natId_digits n
    rw [routeOf_item _ _ _ "/active".data _ hne hds (by decide)]
    · rfl
    · simp [ServiceCall.request, productService.updateActiveStatus, api.patch, baseURL,
        String.data_append]
  | scrapeProduct id =>
    obtain ⟨n, rfl⟩ := h id rfl
    obtain ⟨hne, hds⟩ := natId_digits n
    rw [routeOf_item _ _ _ "/scrape".data _ hne hds (by decide)]
    · rfl
    · simp [ServiceCall.request, productService.scrapeProduct, api.post, baseURL,
        String.data_append]
  | getAllHistory id =>
    obtain ⟨n, rfl⟩ := h id rfl
    obtain ⟨hne, hds⟩ := natId_digits n
    rw [routeOf_item _ _ _ "/prices/all".data _ hne hds (by decide)]
    · rfl
    · simp [ServiceCall.request, priceHistoryService.getAllHistory, api.get, baseURL,
        String.data_append]
  | getHistory id days =>
    obtain ⟨n, rfl⟩ := h id rfl
    obtain ⟨hne, hds⟩ := natId_digits n
    rw [routeOf_item _ _ _ ("/prices?days=".data ++ (ToString.toString (days.getD 30)).data) _
      hne hds (by simp)]
    · simp [routeOfItem, ServiceCall.request, ServiceCall.wrapper, priceHistoryService.getHistory,
        api.get]
    · simp [ServiceCall.request, priceHistoryService.getHistory, api.get, baseURL,
        String.data_append]
  | getAnalytics id days =>
    obtain ⟨n, rfl⟩ := h id rfl
    obtain ⟨hne, hds⟩ := natId_digits n
    rw [routeOf_item _ _ _ ("/analytics?days=".data ++ (ToString.toString (days.getD 30)).data) _
      hne hds (by simp)]
    · simp [routeOfItem, ServiceCall.request, ServiceCall.wrapper,
        priceHistoryService.getAnalytics, api.get]
    · simp [ServiceCall.request, priceHistoryService.getAnalytics, api.get, baseURL,
        String.data_append]

/-- C11: for identifiers that are non-negative integers and any other arguments, two calls
that go through different wrapper functions of `productService`, `priceHistoryService` and
`alertService` never produce the same pair of HTTP method and URL. -/
theorem C11_wrappers_distinct_requests (c1 c2 : ServiceCall) (h1 : c1.HasNatId)
    (h2 : c2.HasNatId) (hw : c1.wrapper ≠ c2.wrapper) :
    (c1.request.method, c1.request.url) ≠ (c2.request.method, c2.request.url) := by
  intro h
  have hm : c1.request.method = c2.request.method := congrArg Prod.fst h
  have hu : c1.request.url = c2.request.url := congrArg Prod.snd h
  have r1 := routeOf_request c1 h1
  have r2 := routeOf_request c2 h2
  rw [hm, hu, r2] at r1
  exact hw (Option.some.inj r1).symm

/-- C11, at an instance: the history of the last days and the whole history of product 7 are
requested at different URLs. -/
theorem C11_wrappers_distinct_requests_witness :
    ((ServiceCall.getHistory (ProductId.num 7) none).request.method,
      (ServiceCall.getHistory (ProductId.num 7) none).request.url) ≠
    ((ServiceCall.getAllHistory (ProductId.num 7)).request.method,
      (ServiceCall.getAllHistory (ProductId.num 7)).request.url) :=
  C11_wrappers_distinct_requests (ServiceCall.getHistory (ProductId.num 7) none)
    (ServiceCall.getAllHistory (ProductId.num 7))
    (fun _ h => ⟨7, (Option.some.inj h).symm⟩) (fun _ h => ⟨7, (Option.some.inj h).symm⟩)
    (by decide)

/-! ## C12: the identifiers of the detail overlay -/

/-- C12 fails on the code: of the components the detail overlay names, `ExternalLink`,
`Clock`, `Mail` and `Trash2` are bound neither by an import nor by a definition of
`App.jsx`, and rendering the overlay for any selected product stops at the first of them with
a `ReferenceError`. -/
theorem C12_overlay_unbound_components :
    App.overlayComponents.filter (fun c => !App.boundNames.contains c) =
      ["ExternalLink", "Clock", "Mail", "Trash2"] ∧
    App.renderOverlay none = Except.ok () ∧
    ∀ p : Product,
      App.renderOverlay (some p) = Except.error "ReferenceError: ExternalLink is not defined" := by
  refine ⟨by decide, rfl, fun p => ?_⟩
  show evalComponents App.boundNames App.overlayComponents = _
  rfl

/-! ## C13: what `PriceChart` renders -/

/-- C13: for missing or empty data `PriceChart` renders the placeholder `Not enough data to
generate pulse` and no chart; for every non-empty data list it renders a chart whose point
list has the length of the input and carries, in the same order, the price of each
observation unchanged. -/
theorem C13_priceChart_points (toLocaleDateString toLocaleString : Int → String) :
    PriceChart toLocaleDateString toLocaleString none =
      ChartView.placeholder "Not enough data to generate pulse" ∧
    PriceChart toLocaleDateString toLocaleString (some []) =
      ChartView.placeholder "Not enough data to generate pulse" ∧
    ∀ data : List PricePoint, data ≠ [] →
      ∃ chartData, PriceChart toLocaleDateString toLocaleString (some data) =
          ChartView.chart chartData ∧
        chartData.length = data.length ∧
        chartData.map (fun pt => pt.price) = data.map (fun item => item.price) ∧
        ∀ (i : Nat) (h1 : i < chartData.length) (h2 : i < data.length),
          (chartData.get ⟨i, h1⟩).price = (data.get ⟨i, h2⟩).price := by
  refine ⟨rfl, rfl, fun data hne => ?_⟩
  have hlen : ¬ data.length = 0 := fun h => hne (List.length_eq_zero.mp h)
  refine ⟨data.map (fun item =>
      { time := toLocaleDateString item.scrapedAt, price := item.price,
        fullDate := toLocaleString item.scrapedAt }), ?_, ?_, ?_, ?_⟩
  · simp only [PriceChart, hlen, if_false]
  · simp
  · simp [Function.comp_def]
  · intro i h1 h2
    simp

/-- C13, at an instance: the real history of the phone, two observations, is charted as two
points with the prices 620 and 500. -/
theorem C13_priceChart_points_witness :
    ∃ chartData, PriceChart (fun _ => "") (fun _ => "") (some Example.history) =
        ChartView.chart chartData ∧
      chartData.length = Example.history.length ∧
      chartData.map (fun pt => pt.price) = Example.history.map (fun item => item.price) ∧
      ∀ (i : Nat) (h1 : i < chartData.length) (h2 : i < Example.history.length),
        (chartData.get ⟨i, h1⟩).price = (Example.history.get ⟨i, h2⟩).price :=
  (C13_priceChart_points (fun _ => "") (fun _ => "")).2.2 Example.history (by decide)

/-! ## C14: the synthetic series -/

/-- C14: for every product with a numeric `currentPrice` and one clock reading `now`, the
series of the card has 5 observations at `now` minus 4, 3, 2, 1 and 0 days and the series of
the overlay has 6 observations at `now` minus 10, 8, 6, 4, 2 and 0 days; the timestamps are
strictly increasing (also when the clock is read anew for every observation and does not run
backwards); the last observation of both carries `currentPrice`; and every price of the
overlay series is at least `currentPrice` when `currentPrice` is not negative. -/
theorem C14_synthetic_series (p : Product) (c : ℚ) (now : Int)
    (hc : p.currentPrice = PriceField.num c) :
    (cardChartData p (fun _ => now)).map (fun pt => pt.scrapedAt) =
      [now - 4 * 86400000, now - 3 * 86400000, now - 2 * 86400000, now - 1 * 86400000, now] ∧
    (overlayChartData p (fun _ => now)).map (fun pt => pt.scrapedAt) =
      [now - 10 * 86400000, now - 8 * 86400000, now - 6 * 86400000, now - 4 * 86400000,
        now - 2 * 86400000, now] ∧
    (∀ clock : Nat → Int, (∀ i j, i ≤ j → clock i ≤ clock j) →
      ((cardChartData p clock).map (fun pt => pt.scrapedAt)).Pairwise (fun a b => a < b) ∧
      ((overlayChartData p clock).map (fun pt => pt.scrapedAt)).Pairwise (fun a b => a < b)) ∧
    ((cardChartData p (fun _ => now)).getLast?).map (fun pt => pt.price) =
      some (JSVal.num (JSNumber.fin c)) ∧
    ((overlayChartData p (fun _ => now)).getLast?).map (fun pt => pt.price) =
      some (JSVal.num (JSNumber.fin c)) ∧
    (0 ≤ c → ∀ pt ∈ overlayChartData p (fun _ => now),
      ∃ q : ℚ, pt.price = JSVal.num (JSNumber.fin q) ∧ c ≤ q) := by
  refine ⟨?_, ?_, ?_, ?_, ?_, ?_⟩
  · simp [cardChartData, mockChartData]
  · simp [overlayChartData]
  · intro clock hmono
    have h01 := hmono 0 1 (by decide)
    have h12 := hmono 1 2 (by decide)
    have h23 := hmono 2 3 (by decide)
    have h34 := hmono 3 4 (by decide)
    have h45 := hmono 4 5 (by decide)
    constructor
    · simp only [cardChartData, mockChartData, List.map_cons, List.map_nil, List.pairwise_cons,
        List.mem_cons, List.mem_singleton, List.not_mem_nil, forall_eq_or_imp, forall_eq,
        false_imp_iff, implies_true, List.Pairwise.nil, and_true]
      omega
    · simp only [overlayChartData, List.map_cons, List.map_nil, List.pairwise_cons,
        List.mem_cons, List.mem_singleton, List.not_mem_nil, forall_eq_or_imp, forall_eq,
        false_imp_iff, implies_true, List.Pairwise.nil, and_true]
      omega
  · simp [cardChartData, mockChartData, hc, PriceField.toVal]
  · simp [overlayChartData, hc, PriceField.toVal]
  · intro h0 pt hpt
    simp only [overlayChartData, hc, scalePrice, PriceField.toNumber, PriceField.toVal,
      JSNumber.mul, List.mem_cons, List.mem_singleton, List.not_mem_nil, or_false] at hpt
    rcases hpt with h | h | h | h | h | h <;> subst h <;>
      exact ⟨_, rfl, by linarith⟩

/-- C14, at an instance: the card of the phone, with the clock at 1700000000000. -/
theorem C14_synthetic_series_witness :
    (cardChartData Example.phone (fun _ => 1700000000000)).map (fun pt => pt.scrapedAt) =
      [1700000000000 - 4 * 86400000, 1700000000000 - 3 * 86400000,
        1700000000000 - 2 * 86400000, 1700000000000 - 1 * 86400000, 1700000000000] :=
  (C14_synthetic_series Example.phone 500 1700000000000 rfl).1

/-! ## C15: the empty state of the product grid -/

theorem includes_empty (s : String) : includes s "" = true :=
  (includes_iff s "").mpr ⟨[], s.data, by simp⟩

/-- In a mode other than `ACTIVE` and `PRICE_DROP`, the idle message is shown only for an
empty product list. -/
theorem idle_message_unfiltered (toLowerCase : String → String) (s : AppState)
    (h0 : toLowerCase "" = "") (h1 : s.filterMode ≠ "ACTIVE") (h2 : s.filterMode ≠ "PRICE_DROP")
    (h : productGrid toLowerCase s = GridView.empty idleMessage) : s.products = [] := by
  unfold productGrid at h
  split_ifs at h with hl hlen hq
  · have hm := congrArg String.data (GridView.empty.inj h)
    simp [noMatchMessage, idleMessage, String.data_append] at hm
  · have hq' : s.searchQuery = "" := not_not.mp hq
    have hall : filteredProducts toLowerCase s = s.products := by
      unfold filteredProducts
      rw [List.filter_eq_self]
      intro p _
      simp [matchesFilter, h1, h2, hq', h0, includes_empty]
    rw [hall] at hlen
    exact List.length_eq_zero.mp hlen

/-- C15 fails on the code: with the filter `PRICE_DROP`, no search text and `loading` false,
the dashboard that tracks the tablet (no price drop) shows the idle message although its
product list is not empty. -/
theorem C15_idle_message_with_products :
    Example.priceDropDashboard.loading = false ∧
    Example.priceDropDashboard.products = [Example.tablet] ∧
    productGrid Example.asciiLower Example.priceDropDashboard = GridView.empty idleMessage := by
  refine ⟨rfl, rfl, ?_⟩
  decide

/-! ## C16: the price-drop badge of the card -/

theorem hasLowerPrice_eq (p : Product) (c : ℚ) (hc : p.currentPrice = PriceField.num c)
    (h0 : 0 ≤ c) : ProductCard.hasLowerPrice p = PriceField.lt p.currentPrice p.avgPrice := by
  unfold ProductCard.hasLowerPrice PriceField.or
  rw [hc]
  cases ha : p.avgPrice with
  | undefined => simp [PriceField.truthy, PriceField.lt, PriceField.toNumber, JSNumber.lt]
  | null =>
    simp [PriceField.truthy, PriceField.lt, PriceField.toNumber, JSNumber.lt]
    exact h0
  | num a =>
    by_cases hz : a = 0
    · subst hz
      simp [PriceField.truthy, PriceField.lt, PriceField.toNumber, JSNumber.lt]
      exact h0
    · simp [PriceField.truthy, hz]

/-- C16: for every product with a non-negative numeric `currentPrice`, whatever its
`avgPrice` (a number, zero, `null` or absent), the badge test `hasLowerPrice` of the card has
the value of the test `currentPrice < avgPrice` used by `stats.drops` and by the `PRICE_DROP`
filter: the badge is shown if and only if the product has a price drop, the product adds one
to `stats.drops` exactly when its badge is shown, and it passes the `PRICE_DROP` filter
exactly when it passes the name test and its badge is shown. -/
theorem C16_badge_agrees_with_drops (p : Product) (c : ℚ)
    (hc : p.currentPrice = PriceField.num c) (h0 : 0 ≤ c) :
    (ProductCard.hasLowerPrice p = true ↔ PriceDrop p) ∧
    (∀ s : AppState, (stats { s with products := p :: s.products }).drops =
      (stats s).drops + (if ProductCard.hasLowerPrice p = true then 1 else 0)) ∧
    (∀ (toLowerCase : String → String) (q : String),
      matchesFilter toLowerCase q "PRICE_DROP" p =
        (includes (toLowerCase p.name) (toLowerCase q) && ProductCard.hasLowerPrice p)) ∧
    (∀ (toLowerCase : String → String) (s : AppState), s.filterMode = "PRICE_DROP" →
      (p ∈ filteredProducts toLowerCase s ↔ p ∈ s.products ∧
        includes (toLowerCase p.name) (toLowerCase s.searchQuery) = true ∧
        ProductCard.hasLowerPrice p = true)) := by
  have heq := hasLowerPrice_eq p c hc h0
  refine ⟨?_, ?_, ?_, ?_⟩
  · rw [heq]
    exact priceDrop_iff p
  · intro s
    rw [heq]
    by_cases h : PriceField.lt p.currentPrice p.avgPrice = true <;>
      simp [stats, List.filter_cons, h]
  · intro toLowerCase q
    rw [heq]
    simp [matchesFilter]
  · intro toLowerCase s hm
    rw [heq]
    simp [filteredProducts, matchesFilter, hm, List.mem_filter]

/-- C16, at an instance: the phone costs 500 against an average of 550; its badge is shown
and it has a price drop. -/
theorem C16_badge_agrees_with_drops_witness :
    ProductCard.hasLowerPrice Example.phone = true ↔ PriceDrop Example.phone :=
  (C16_badge_agrees_with_drops Example.phone 500 rfl (by norm_num)).1

/-! ## C17: filters and statistics -/

/-- C17: for every product list with an empty search text (the empty string lower-casing to
itself), the number of products shown in mode `ACTIVE` is `stats.active`, in mode
`PRICE_DROP` it is `stats.drops` and in mode `ALL` it is `stats.total`; and for every search
text the `ACTIVE` and the `PRICE_DROP` results are sublists of the `ALL` result, which is a
sublist of the product list. -/
theorem C17_filter_agrees_with_stats (toLowerCase : String → String) (s : AppState) :
    (toLowerCase "" = "" → s.searchQuery = "" →
      (filteredProducts toLowerCase { s with filterMode := "ACTIVE" }).length = (stats s).active ∧
      (filteredProducts toLowerCase { s with filterMode := "PRICE_DROP" }).length =
        (stats s).drops ∧
      (filteredProducts toLowerCase { s with filterMode := "ALL" }).length = (stats s).total) ∧
    (filteredProducts toLowerCase { s with filterMode := "ACTIVE" }).Sublist
      (filteredProducts toLowerCase { s with filterMode := "ALL" }) ∧
    (filteredProducts toLowerCase { s with filterMode := "PRICE_DROP" }).Sublist
      (filteredProducts toLowerCase { s with filterMode := "ALL" }) ∧
    (filteredProducts toLowerCase { s with filterMode := "ALL" }).Sublist s.products := by
  have hA : filteredProducts toLowerCase { s with filterMode := "ACTIVE" } =
      (filteredProducts toLowerCase { s with filterMode := "ALL" }).filter
        (fun p => p.active) := by
    simp only [filteredProducts, List.filter_filter]
    apply List.filter_congr
    intro p _
    simp [matchesFilter, Bool.and_comm]
  have hD : filteredProducts toLowerCase { s with filterMode := "PRICE_DROP" } =
      (filteredProducts toLowerCase { s with filterMode := "ALL" }).filter
        (fun p => PriceField.lt p.currentPrice p.avgPrice) := by
    simp only [filteredProducts, List.filter_filter]
    apply List.filter_congr
    intro p _
    simp [matchesFilter, Bool.and_comm]
  refine ⟨?_, ?_, ?_, List.filter_sublist _⟩
  · intro h0 hq
    have hall : filteredProducts toLowerCase { s with filterMode := "ALL" } = s.products := by
      unfold filteredProducts
      rw [List.filter_eq_self]
      intro p _
      simp [matchesFilter, hq, h0, includes_empty]
    refine ⟨?_, ?_, ?_⟩
    · rw [hA, hall]
      rfl
    · rw [hD, hall]
      rfl
    · rw [hall]
      rfl
  · rw [hA]
    exact List.filter_sublist _
  · rw [hD]
    exact List.filter_sublist _

/-- C17, at an instance: with the ASCII lower-casing and no search text, the example
dashboard shows one product in mode `ACTIVE`, as many as `stats.active` counts. -/
theorem C17_filter_agrees_with_stats_witness :
    (filteredProducts Example.asciiLower
      { Example.dashboard with filterMode := "ACTIVE" }).length =
      (stats Example.dashboard).active :=
  ((C17_filter_agrees_with_stats Example.asciiLower Example.dashboard).1 (by decide) rfl).1

/-! ## C18: the closed add-product modal -/

/-- The two halves of a submission in the machine are `handleSubmit`: from an open form on
step 1, `startSubmit` followed by the response leaves the cells that one run of
`App.handleSubmit` with that response leaves. -/
theorem machine_submit_agrees (srv : Server) (w : Sys) (s : ModalMachine)
    (hform : s.form = w.modal) (hopen : s.isOpen = true) (hstep : w.modal.step = 1)
    (hload : w.modal.loading = false) (hurl : w.modal.url ≠ "") :
    (s.run [ModalEvent.startSubmit,
        match srv.addProduct (AddProductModal.submitData w.modal) with
        | Except.ok _ => ModalEvent.resolveSuccess
        | Except.error err => ModalEvent.resolveFailure err]).map (fun s1 => s1.form) =
      some ((App.handleSubmit srv).runFrom w).2.modal := by
  rw [App.handleSubmit_run, fetchProducts_run]
  obtain ⟨isOpen, form, inFlight⟩ := s
  simp only at hform hopen
  subst hform hopen
  cases h : srv.addProduct (AddProductModal.submitData w.modal) with
  | error err =>
    simp [ModalMachine.run, ModalMachine.step, hstep, hload, hurl]
  | ok u =>
    cases srv.getAllProducts <;>
      simp [ModalMachine.run, ModalMachine.step, hstep, hload, hurl]

/-- The fields that `handleReset` clears are clear in every reachable closed state. -/
theorem closed_fields_reset (evs : List ModalEvent) :
    ∀ s s1 : ModalMachine, s.run evs = some s1 →
      (s.isOpen = false → s.form.url = "" ∧ s.form.targetPrice = "" ∧ s.form.email = "" ∧
        s.form.frequency = "DAILY") →
      (s1.isOpen = false → s1.form.url = "" ∧ s1.form.targetPrice = "" ∧ s1.form.email = "" ∧
        s1.form.frequency = "DAILY") := by
  induction evs with
  | nil =>
    intro s s1 h hs
    simp only [ModalMachine.run, Option.some.injEq] at h
    exact h ▸ hs
  | cons e es ih =>
    intro s s1 h hs
    simp only [ModalMachine.run] at h
    cases hstep : s.step e with
    | none => simp [hstep] at h
    | some s2 =>
      rw [hstep] at h
      refine ih s2 s1 h ?_
      intro hclosed
      cases e <;> simp only [ModalMachine.step] at hstep <;>
        first
          | (split_ifs at hstep with hg
             simp only [Option.some.injEq] at hstep
             subst hstep
             first
               | exact ⟨rfl, rfl, rfl, rfl⟩
               | exact hs hclosed
               | (exfalso; simp_all))
          | (simp only [Option.some.injEq] at hstep
             subst hstep
             simp at hclosed)

/-- C18 fails on the code: the modal is opened, a URL is typed, the form is submitted and the
modal is closed while the request is in flight. The closed modal then has `loading` true;
when the request succeeds it has `step` 2 although it is closed; and when it is opened again
it is still on step 2, the success screen, not on the empty input form. A request that fails
instead leaves its error text in the closed modal. -/
theorem C18_closed_modal_not_initial :
    ModalMachine.init.run Example.closeWhileInFlight =
      some { isOpen := false, form := { ModalState.init with loading := true },
             inFlight := true } ∧
    ModalMachine.init.run (Example.closeWhileInFlight ++ [ModalEvent.resolveSuccess]) =
      some { isOpen := false, form := { ModalState.init with step := 2 }, inFlight := false } ∧
    ModalMachine.init.run
        (Example.closeWhileInFlight ++ [ModalEvent.resolveSuccess, ModalEvent.open]) =
      some { isOpen := true, form := { ModalState.init with step := 2 }, inFlight := false } ∧
    ModalMachine.init.run
        (Example.closeWhileInFlight ++ [ModalEvent.resolveFailure { message := none }]) =
      some { isOpen := false,
             form := { ModalState.init with error := AddProductModal.fallbackError },
             inFlight := false } := by
  refine ⟨?_, ?_, ?_, ?_⟩ <;> decide

/-! ## C19: the spinner of the card -/

/-- When the awaited `onScrape` rejects, `handleScrape` ends with the rejection and leaves
the card spinning: the last statement is not reached. -/
theorem handleScrape_rejected (e : AxiosError) (product : Product) (card : CardState) (w : Sys) :
    ProductCard.handleScrape (fun _ => throw e) product card w =
      (Except.error e, { isScraping := true, writes := card.writes ++ [true] }, w) :=
  rfl

/-- C19: with `App.handleManualScrape` as `onScrape`, for every outcome of the scrape
request, of the list refetch and of the `getProduct` request, `handleScrape` calls
`setIsScraping(true)`, then `setIsScraping(false)`, and ends without an error with
`isScraping` false; the page is left as `handleManualScrape` leaves it. -/
theorem C19_handleScrape_stops_spinning (srv : Server) (product : Product) (card : CardState)
    (w : Sys) :
    (ProductCard.handleScrape (handleManualScrape srv) product card w).1 = Except.ok () ∧
    (ProductCard.handleScrape (handleManualScrape srv) product card w).2.1.isScraping = false ∧
    (ProductCard.handleScrape (handleManualScrape srv) product card w).2.1.writes =
      card.writes ++ [true, false] ∧
    (ProductCard.handleScrape (handleManualScrape srv) product card w).2.2 =
      ((handleManualScrape srv product.id).runFrom w).2 := by
  unfold ProductCard.handleScrape
  rw [handleManualScrape_run]
  simp [CardState.setIsScraping]

/-! ## C20: the price texts -/

/-- The price texts that do show a placeholder: on the card `₹N/A` for a missing current
price and `₹---` for a missing target price, in the overlay `₹N/A` for a missing lowest or
highest price and `₹---` for a missing target price; and a price that is a number, 0
included, is shown as the number on the card and in the overlay (the text of a number never
being empty). -/
theorem price_texts_with_placeholder (toLocaleString : ℚ → String)
    (hfmt : ∀ q, toLocaleString q ≠ "") (p : Product) :
    (p.currentPrice = PriceField.undefined ∨ p.currentPrice = PriceField.null →
      ProductCard.currentPriceText toLocaleString p = "₹N/A") ∧
    (p.targetPrice = PriceField.undefined ∨ p.targetPrice = PriceField.null →
      ProductCard.targetPriceText toLocaleString p = "₹---") ∧
    (p.minPrice = PriceField.undefined ∨ p.minPrice = PriceField.null →
      { label := "Lowest Seen", value := "₹N/A" } ∈ App.detailStats toLocaleString p) ∧
    (p.maxPrice = PriceField.undefined ∨ p.maxPrice = PriceField.null →
      { label := "Highest Seen", value := "₹N/A" } ∈ App.detailStats toLocaleString p) ∧
    (p.targetPrice = PriceField.undefined ∨ p.targetPrice = PriceField.null →
      { label := "Target Set", value := "₹---" } ∈ App.detailStats toLocaleString p) ∧
    (∀ q, p.currentPrice = PriceField.num q →
      ProductCard.currentPriceText toLocaleString p = "₹" ++ toLocaleString q ∧
      { label := "Current Price", value := "₹" ++ toLocaleString q } ∈
        App.detailStats toLocaleString p) := by
  refine ⟨?_, ?_, ?_, ?_, ?_, ?_⟩
  · rintro (h | h) <;> simp [ProductCard.currentPriceText, h, localeString?, orPlaceholder]
  · rintro (h | h) <;> simp [ProductCard.targetPriceText, h, localeString?, orPlaceholder]
  · rintro (h | h) <;> simp [App.detailStats, h, localeString?, orPlaceholder]
  · rintro (h | h) <;> simp [App.detailStats, h, localeString?, orPlaceholder]
  · rintro (h | h) <;> simp [App.detailStats, h, localeString?, orPlaceholder]
  · intro q h
    simp [ProductCard.currentPriceText, App.detailStats, h, localeString?, orPlaceholder,
      interpolate, hfmt q]

/-- C20 fails on the code: for the lamp, whose prices are all `null`, the detail overlay
shows `₹N/A`, `₹N/A` and `₹---` for the lowest, highest and target price, but the text
`₹undefined` for the current price; the same holds when the current price is absent. -/
theorem C20_overlay_current_price_undefined (toLocaleString : ℚ → String) :
    App.detailStats toLocaleString Example.lamp =
      [{ label := "Current Price", value := "₹undefined" },
        { label := "Lowest Seen", value := "₹N/A" },
        { label := "Highest Seen", value := "₹N/A" },
        { label := "Target Set", value := "₹---" }] ∧
    (App.detailStats toLocaleString
        { Example.lamp with currentPrice := PriceField.undefined }).head? =
      some { label := "Current Price", value := "₹undefined" } := by
  constructor <;> rfl

end PriceTracker
